import Mathlib

/-!
# TixiHelper: the exception-based accessor layer over the TIXI XML library

A shallow embedding of `src/TixiHelper.cpp`.

* `std::string` is `String`; `c_str()` is the identity.
* `ReturnCode` (a C enumeration) is an integer; the enumerators are numbered in
  declaration order.
* A function that may throw returns `Except Exn α`; the two exception classes that occur
  are `TixiError` and `std::logic_error`.
* The TIXI library itself is a record `Tixi σ` of functions over a library state `σ`.
  The wrappers thread a `World σ` that holds the library state and the log of every
  underlying call made so far, so that both the effect on the document and the order of
  the calls can be stated.
-/

namespace tigl
namespace tixihelper

/-! ## Status codes -/

/-- Modelled from the spec: the enumeration `ReturnCode` is declared in the TIXI header,
which is not part of the sources. It is "an enumerated result signal"; a C enumeration is
an integer, and its enumerators count up from zero in declaration order, which is the order
of the `case` labels of `errorToString`. The comments there give the same numbers, except that
the last one repeats 33 where the count gives 34 (two `case` labels cannot share a value). -/
abbrev ReturnCode := Int

def SUCCESS : ReturnCode := 0
def FAILED : ReturnCode := 1
def INVALID_XML_NAME : ReturnCode := 2
def NOT_WELL_FORMED : ReturnCode := 3
def NOT_SCHEMA_COMPLIANT : ReturnCode := 4
def NOT_DTD_COMPLIANT : ReturnCode := 5
def INVALID_HANDLE : ReturnCode := 6
def INVALID_XPATH : ReturnCode := 7
def ELEMENT_NOT_FOUND : ReturnCode := 8
def INDEX_OUT_OF_RANGE : ReturnCode := 9
def NO_POINT_FOUND : ReturnCode := 10
def NOT_AN_ELEMENT : ReturnCode := 11
def ATTRIBUTE_NOT_FOUND : ReturnCode := 12
def OPEN_FAILED : ReturnCode := 13
def OPEN_SCHEMA_FAILED : ReturnCode := 14
def OPEN_DTD_FAILED : ReturnCode := 15
def CLOSE_FAILED : ReturnCode := 16
def ALREADY_SAVED : ReturnCode := 17
def ELEMENT_PATH_NOT_UNIQUE : ReturnCode := 18
def NO_ELEMENT_NAME : ReturnCode := 19
def NO_CHILDREN : ReturnCode := 20
def CHILD_NOT_FOUND : ReturnCode := 21
def EROROR_CREATE_ROOT_NODE : ReturnCode := 22
def DEALLOCATION_FAILED : ReturnCode := 23
def NO_NUMBER : ReturnCode := 24
def NO_ATTRIBUTE_NAME : ReturnCode := 25
def STRING_TRUNCATED : ReturnCode := 26
def NON_MATCHING_NAME : ReturnCode := 27
def NON_MATCHING_SIZE : ReturnCode := 28
def MATRIX_DIMENSION_ERROR : ReturnCode := 29
def COORDINATE_NOT_FOUND : ReturnCode := 30
def UNKNOWN_STORAGE_MODE : ReturnCode := 31
def UID_NOT_UNIQUE : ReturnCode := 32
def UID_DONT_EXISTS : ReturnCode := 33
def UID_LINK_BROKEN : ReturnCode := 34

/-- The defined status codes: the values of the enumerators `SUCCESS` .. `UID_LINK_BROKEN`. -/
def isDefinedCode (ret : ReturnCode) : Prop := SUCCESS ≤ ret ∧ ret ≤ UID_LINK_BROKEN

instance (ret : ReturnCode) : Decidable (isDefinedCode ret) := by
  unfold isDefinedCode; exact inferInstance

/-- The enumerators paired with their identifiers, in declaration order. -/
def definedCodes : List (ReturnCode × String) :=
  [ (SUCCESS, "SUCCESS"), (FAILED, "FAILED"), (INVALID_XML_NAME, "INVALID_XML_NAME"),
    (NOT_WELL_FORMED, "NOT_WELL_FORMED"), (NOT_SCHEMA_COMPLIANT, "NOT_SCHEMA_COMPLIANT"),
    (NOT_DTD_COMPLIANT, "NOT_DTD_COMPLIANT"), (INVALID_HANDLE, "INVALID_HANDLE"),
    (INVALID_XPATH, "INVALID_XPATH"), (ELEMENT_NOT_FOUND, "ELEMENT_NOT_FOUND"),
    (INDEX_OUT_OF_RANGE, "INDEX_OUT_OF_RANGE"), (NO_POINT_FOUND, "NO_POINT_FOUND"),
    (NOT_AN_ELEMENT, "NOT_AN_ELEMENT"), (ATTRIBUTE_NOT_FOUND, "ATTRIBUTE_NOT_FOUND"),
    (OPEN_FAILED, "OPEN_FAILED"), (OPEN_SCHEMA_FAILED, "OPEN_SCHEMA_FAILED"),
    (OPEN_DTD_FAILED, "OPEN_DTD_FAILED"), (CLOSE_FAILED, "CLOSE_FAILED"),
    (ALREADY_SAVED, "ALREADY_SAVED"), (ELEMENT_PATH_NOT_UNIQUE, "ELEMENT_PATH_NOT_UNIQUE"),
    (NO_ELEMENT_NAME, "NO_ELEMENT_NAME"), (NO_CHILDREN, "NO_CHILDREN"),
    (CHILD_NOT_FOUND, "CHILD_NOT_FOUND"), (EROROR_CREATE_ROOT_NODE, "EROROR_CREATE_ROOT_NODE"),
    (DEALLOCATION_FAILED, "DEALLOCATION_FAILED"), (NO_NUMBER, "NO_NUMBER"),
    (NO_ATTRIBUTE_NAME, "NO_ATTRIBUTE_NAME"), (STRING_TRUNCATED, "STRING_TRUNCATED"),
    (NON_MATCHING_NAME, "NON_MATCHING_NAME"), (NON_MATCHING_SIZE, "NON_MATCHING_SIZE"),
    (MATRIX_DIMENSION_ERROR, "MATRIX_DIMENSION_ERROR"),
    (COORDINATE_NOT_FOUND, "COORDINATE_NOT_FOUND"),
    (UNKNOWN_STORAGE_MODE, "UNKNOWN_STORAGE_MODE"), (UID_NOT_UNIQUE, "UID_NOT_UNIQUE"),
    (UID_DONT_EXISTS, "UID_DONT_EXISTS"), (UID_LINK_BROKEN, "UID_LINK_BROKEN") ]

/-! ## Exceptions -/

/-- The exception object `TixiError`: the status code and the message of `what()`. -/
structure TixiError where
  m_ret : ReturnCode
  m_message : String
  deriving DecidableEq, Repr

/-- What a function of this file can throw. -/
inductive Exn where
  | logic_error (what : String)
  | tixiError (e : TixiError)
  deriving DecidableEq, Repr

deriving instance DecidableEq for Except

/-- The name of a status code; `default:` throws `std::logic_error`. -/
def errorToString (ret : ReturnCode) : Except Exn String :=
  if ret = SUCCESS then .ok "SUCCESS"
  else if ret = FAILED then .ok "FAILED"
  else if ret = INVALID_XML_NAME then .ok "INVALID_XML_NAME"
  else if ret = NOT_WELL_FORMED then .ok "NOT_WELL_FORMED"
  else if ret = NOT_SCHEMA_COMPLIANT then .ok "NOT_SCHEMA_COMPLIANT"
  else if ret = NOT_DTD_COMPLIANT then .ok "NOT_DTD_COMPLIANT"
  else if ret = INVALID_HANDLE then .ok "INVALID_HANDLE"
  else if ret = INVALID_XPATH then .ok "INVALID_XPATH"
  else if ret = ELEMENT_NOT_FOUND then .ok "ELEMENT_NOT_FOUND"
  else if ret = INDEX_OUT_OF_RANGE then .ok "INDEX_OUT_OF_RANGE"
  else if ret = NO_POINT_FOUND then .ok "NO_POINT_FOUND"
  else if ret = NOT_AN_ELEMENT then .ok "NOT_AN_ELEMENT"
  else if ret = ATTRIBUTE_NOT_FOUND then .ok "ATTRIBUTE_NOT_FOUND"
  else if ret = OPEN_FAILED then .ok "OPEN_FAILED"
  else if ret = OPEN_SCHEMA_FAILED then .ok "OPEN_SCHEMA_FAILED"
  else if ret = OPEN_DTD_FAILED then .ok "OPEN_DTD_FAILED"
  else if ret = CLOSE_FAILED then .ok "CLOSE_FAILED"
  else if ret = ALREADY_SAVED then .ok "ALREADY_SAVED"
  else if ret = ELEMENT_PATH_NOT_UNIQUE then .ok "ELEMENT_PATH_NOT_UNIQUE"
  else if ret = NO_ELEMENT_NAME then .ok "NO_ELEMENT_NAME"
  else if ret = NO_CHILDREN then .ok "NO_CHILDREN"
  else if ret = CHILD_NOT_FOUND then .ok "CHILD_NOT_FOUND"
  else if ret = EROROR_CREATE_ROOT_NODE then .ok "EROROR_CREATE_ROOT_NODE"
  else if ret = DEALLOCATION_FAILED then .ok "DEALLOCATION_FAILED"
  else if ret = NO_NUMBER then .ok "NO_NUMBER"
  else if ret = NO_ATTRIBUTE_NAME then .ok "NO_ATTRIBUTE_NAME"
  else if ret = STRING_TRUNCATED then .ok "STRING_TRUNCATED"
  else if ret = NON_MATCHING_NAME then .ok "NON_MATCHING_NAME"
  else if ret = NON_MATCHING_SIZE then .ok "NON_MATCHING_SIZE"
  else if ret = MATRIX_DIMENSION_ERROR then .ok "MATRIX_DIMENSION_ERROR"
  else if ret = COORDINATE_NOT_FOUND then .ok "COORDINATE_NOT_FOUND"
  else if ret = UNKNOWN_STORAGE_MODE then .ok "UNKNOWN_STORAGE_MODE"
  else if ret = UID_NOT_UNIQUE then .ok "UID_NOT_UNIQUE"
  else if ret = UID_DONT_EXISTS then .ok "UID_DONT_EXISTS"
  else if ret = UID_LINK_BROKEN then .ok "UID_LINK_BROKEN"
  else .error (.logic_error "Invalid ReturnCode")

/-- The constructor `TixiError(ret)`. It calls `errorToString`, so it can itself throw. -/
def TixiError.ofCode (ret : ReturnCode) : Except Exn TixiError :=
  match errorToString ret with
  | .ok name => .ok ⟨ret, "ReturnCode: " ++ name⟩
  | .error x => .error x

/-- The constructor `TixiError(ret, message)`. It calls `errorToString`, so it can itself
throw. -/
def TixiError.ofCodeMessage (ret : ReturnCode) (message : String) : Except Exn TixiError :=
  match errorToString ret with
  | .ok name => .ok ⟨ret, message ++ "\nReturnCode: " ++ name⟩
  | .error x => .error x

/-- The member function `TixiError::what()`. -/
def TixiError.what (e : TixiError) : String := e.m_message

/-- The exception that leaves a `throw TixiError(ret, message)` expression: the constructed
`TixiError`, or what its constructor threw. -/
def throwTixiError (ret : ReturnCode) (message : String) : Exn :=
  match TixiError.ofCodeMessage ret message with
  | .ok e => .tixiError e
  | .error x => x

/-! ## Path splitting -/

/-- The result type `SplitXPath`. -/
structure SplitXPath where
  parentXPath : String
  element : String
  deriving DecidableEq, Repr

/-- The member `std::string::find_last_of(c)` on the characters of a string: the largest
index holding `c`, or `none` for `npos`. -/
def find_last_of : List Char → Char → Option Nat
  | [], _ => none
  | x :: xs, c =>
    match find_last_of xs c with
    | some i => some (i + 1)
    | none => if x = c then some 0 else none

/-- The member `std::string::substr(pos, n)` for `pos ≤ size()`. -/
def substr (s : String) (pos : Nat) (n : Nat) : String := ⟨(s.data.drop pos).take n⟩

/-- The member `std::string::substr(pos)` for `pos ≤ size()`. -/
def substrFrom (s : String) (pos : Nat) : String := ⟨s.data.drop pos⟩

def splitXPath (xpath : String) : SplitXPath :=
  let pos := find_last_of xpath.data '/'
  { parentXPath := match pos with
      | some p => substr xpath 0 p
      | none => ""
    element := match pos with
      | some p => substrFrom xpath (p + 1)
      | none => xpath }

/-! ## The underlying library -/

/-- The type `TixiDocumentHandle` of the TIXI header: an integer naming an open document. -/
abbrev TixiDocumentHandle := Int

/-- A C `double`, as its 64-bit pattern. The wrappers only pass doubles on. -/
structure Double where
  bits : Nat
  deriving DecidableEq, Repr

/-- Modelled from the spec: the TIXI functions that the wrappers call. Their code is not part
of the sources; the spec treats the library as a black box that takes a document handle,
path strings, attribute names and typed values, and answers with a status code. `σ` is the
state of the library (its open documents). A check or retrieval function is a query: it
answers with a status code (and, for a retrieval, the content it leaves in the scratch value
the caller passed). An add or remove function answers with a status code and the new
state. A `format` argument is a C string or `nullptr`. -/
structure Tixi (σ : Type) where
  checkElement : σ → TixiDocumentHandle → String → ReturnCode
  checkAttribute : σ → TixiDocumentHandle → String → String → ReturnCode
  getTextAttribute : σ → TixiDocumentHandle → String → String → ReturnCode × String
  getDoubleAttribute : σ → TixiDocumentHandle → String → String → ReturnCode × Double
  getBooleanAttribute : σ → TixiDocumentHandle → String → String → ReturnCode × Int
  getIntegerAttribute : σ → TixiDocumentHandle → String → String → ReturnCode × Int
  getTextElement : σ → TixiDocumentHandle → String → ReturnCode × String
  getDoubleElement : σ → TixiDocumentHandle → String → ReturnCode × Double
  getBooleanElement : σ → TixiDocumentHandle → String → ReturnCode × Int
  getIntegerElement : σ → TixiDocumentHandle → String → ReturnCode × Int
  removeElement : σ → TixiDocumentHandle → String → ReturnCode × σ
  addTextAttribute : σ → TixiDocumentHandle → String → String → String → ReturnCode × σ
  addDoubleAttribute :
    σ → TixiDocumentHandle → String → String → Double → Option String → ReturnCode × σ
  addIntegerAttribute :
    σ → TixiDocumentHandle → String → String → Int → Option String → ReturnCode × σ
  addTextElement : σ → TixiDocumentHandle → String → String → String → ReturnCode × σ
  addDoubleElement :
    σ → TixiDocumentHandle → String → String → Double → Option String → ReturnCode × σ
  addBooleanElement : σ → TixiDocumentHandle → String → String → Int → ReturnCode × σ
  addIntegerElement :
    σ → TixiDocumentHandle → String → String → Int → Option String → ReturnCode × σ

/-- One call into the library, with its arguments. -/
inductive Call where
  | checkElement (h : TixiDocumentHandle) (elementPath : String)
  | checkAttribute (h : TixiDocumentHandle) (elementPath attributeName : String)
  | getTextAttribute (h : TixiDocumentHandle) (elementPath attributeName : String)
  | getDoubleAttribute (h : TixiDocumentHandle) (elementPath attributeName : String)
  | getBooleanAttribute (h : TixiDocumentHandle) (elementPath attributeName : String)
  | getIntegerAttribute (h : TixiDocumentHandle) (elementPath attributeName : String)
  | getTextElement (h : TixiDocumentHandle) (elementPath : String)
  | getDoubleElement (h : TixiDocumentHandle) (elementPath : String)
  | getBooleanElement (h : TixiDocumentHandle) (elementPath : String)
  | getIntegerElement (h : TixiDocumentHandle) (elementPath : String)
  | removeElement (h : TixiDocumentHandle) (elementPath : String)
  | addTextAttribute (h : TixiDocumentHandle) (elementPath attributeName text : String)
  | addDoubleAttribute (h : TixiDocumentHandle) (elementPath attributeName : String)
      (number : Double) (format : Option String)
  | addIntegerAttribute (h : TixiDocumentHandle) (elementPath attributeName : String)
      (number : Int) (format : Option String)
  | addTextElement (h : TixiDocumentHandle) (parentPath elementName text : String)
  | addDoubleElement (h : TixiDocumentHandle) (parentPath elementName : String)
      (number : Double) (format : Option String)
  | addBooleanElement (h : TixiDocumentHandle) (parentPath elementName : String)
      (boolean : Int)
  | addIntegerElement (h : TixiDocumentHandle) (parentPath elementName : String)
      (number : Int) (format : Option String)
  deriving DecidableEq, Repr

/-- What a wrapper runs in: the state of the library and the calls made into it so far,
oldest first. -/
structure World (σ : Type) where
  doc : σ
  calls : List Call

/-- Record a call. -/
def World.log {σ : Type} (w : World σ) (c : Call) : World σ :=
  { w with calls := w.calls ++ [c] }

/-- Record a call that changed the library state to `doc`. -/
def World.step {σ : Type} (w : World σ) (c : Call) (doc : σ) : World σ :=
  { doc := doc, calls := w.calls ++ [c] }

section calls
variable {σ : Type} (L : Tixi σ)

/-! The library functions as the wrappers see them: the call is made on the current state
and recorded. -/

def tixiCheckElement (h : TixiDocumentHandle) (elementPath : String) (w : World σ) :
    ReturnCode × World σ :=
  (L.checkElement w.doc h elementPath, w.log (.checkElement h elementPath))

def tixiCheckAttribute (h : TixiDocumentHandle) (elementPath attributeName : String)
    (w : World σ) : ReturnCode × World σ :=
  (L.checkAttribute w.doc h elementPath attributeName,
    w.log (.checkAttribute h elementPath attributeName))

def tixiGetTextAttribute (h : TixiDocumentHandle) (elementPath attributeName : String)
    (w : World σ) : (ReturnCode × String) × World σ :=
  (L.getTextAttribute w.doc h elementPath attributeName,
    w.log (.getTextAttribute h elementPath attributeName))

def tixiGetDoubleAttribute (h : TixiDocumentHandle) (elementPath attributeName : String)
    (w : World σ) : (ReturnCode × Double) × World σ :=
  (L.getDoubleAttribute w.doc h elementPath attributeName,
    w.log (.getDoubleAttribute h elementPath attributeName))

def tixiGetBooleanAttribute (h : TixiDocumentHandle) (elementPath attributeName : String)
    (w : World σ) : (ReturnCode × Int) × World σ :=
  (L.getBooleanAttribute w.doc h elementPath attributeName,
    w.log (.getBooleanAttribute h elementPath attributeName))

def tixiGetIntegerAttribute (h : TixiDocumentHandle) (elementPath attributeName : String)
    (w : World σ) : (ReturnCode × Int) × World σ :=
  (L.getIntegerAttribute w.doc h elementPath attributeName,
    w.log (.getIntegerAttribute h elementPath attributeName))

def tixiGetTextElement (h : TixiDocumentHandle) (elementPath : String) (w : World σ) :
    (ReturnCode × String) × World σ :=
  (L.getTextElement w.doc h elementPath, w.log (.getTextElement h elementPath))

def tixiGetDoubleElement (h : TixiDocumentHandle) (elementPath : String) (w : World σ) :
    (ReturnCode × Double) × World σ :=
  (L.getDoubleElement w.doc h elementPath, w.log (.getDoubleElement h elementPath))

def tixiGetBooleanElement (h : TixiDocumentHandle) (elementPath : String) (w : World σ) :
    (ReturnCode × Int) × World σ :=
  (L.getBooleanElement w.doc h elementPath, w.log (.getBooleanElement h elementPath))

def tixiGetIntegerElement (h : TixiDocumentHandle) (elementPath : String) (w : World σ) :
    (ReturnCode × Int) × World σ :=
  (L.getIntegerElement w.doc h elementPath, w.log (.getIntegerElement h elementPath))

def tixiRemoveElement (h : TixiDocumentHandle) (elementPath : String) (w : World σ) :
    ReturnCode × World σ :=
  let r := L.removeElement w.doc h elementPath
  (r.1, w.step (.removeElement h elementPath) r.2)

def tixiAddTextAttribute (h : TixiDocumentHandle) (elementPath attributeName : String)
    (text : String) (w : World σ) : ReturnCode × World σ :=
  let r := L.addTextAttribute w.doc h elementPath attributeName text
  (r.1, w.step (.addTextAttribute h elementPath attributeName text) r.2)

def tixiAddDoubleAttribute (h : TixiDocumentHandle) (elementPath attributeName : String)
    (number : Double) (format : Option String) (w : World σ) : ReturnCode × World σ :=
  let r := L.addDoubleAttribute w.doc h elementPath attributeName number format
  (r.1, w.step (.addDoubleAttribute h elementPath attributeName number format) r.2)

def tixiAddIntegerAttribute (h : TixiDocumentHandle) (elementPath attributeName : String)
    (number : Int) (format : Option String) (w : World σ) : ReturnCode × World σ :=
  let r := L.addIntegerAttribute w.doc h elementPath attributeName number format
  (r.1, w.step (.addIntegerAttribute h elementPath attributeName number format) r.2)

def tixiAddTextElement (h : TixiDocumentHandle) (parentPath elementName : String)
    (text : String) (w : World σ) : ReturnCode × World σ :=
  let r := L.addTextElement w.doc h parentPath elementName text
  (r.1, w.step (.addTextElement h parentPath elementName text) r.2)

def tixiAddDoubleElement (h : TixiDocumentHandle) (parentPath elementName : String)
    (number : Double) (format : Option String) (w : World σ) : ReturnCode × World σ :=
  let r := L.addDoubleElement w.doc h parentPath elementName number format
  (r.1, w.step (.addDoubleElement h parentPath elementName number format) r.2)

def tixiAddBooleanElement (h : TixiDocumentHandle) (parentPath elementName : String)
    (boolean : Int) (w : World σ) : ReturnCode × World σ :=
  let r := L.addBooleanElement w.doc h parentPath elementName boolean
  (r.1, w.step (.addBooleanElement h parentPath elementName boolean) r.2)

def tixiAddIntegerElement (h : TixiDocumentHandle) (parentPath elementName : String)
    (number : Int) (format : Option String) (w : World σ) : ReturnCode × World σ :=
  let r := L.addIntegerElement w.doc h parentPath elementName number format
  (r.1, w.step (.addIntegerElement h parentPath elementName number format) r.2)

end calls

/-! ## The wrappers -/

section wrappers
variable {σ : Type} (L : Tixi σ)

def TixiCheckAttribute (tixiHandle : TixiDocumentHandle) (xpath attr : String)
    (w : World σ) : Except Exn Bool × World σ :=
  let (ret, w1) := tixiCheckAttribute L tixiHandle xpath attr w
  if ret = SUCCESS then (.ok true, w1)
  else if ret = ATTRIBUTE_NOT_FOUND then (.ok false, w1)
  else (.error (throwTixiError ret
    ("Checking attribute existence failed\n" ++ "xpath: " ++ xpath ++ "\n"
      ++ "attribute: " ++ attr)), w1)

def TixiCheckElement (tixiHandle : TixiDocumentHandle) (xpath : String) (w : World σ) :
    Except Exn Bool × World σ :=
  let (ret, w1) := tixiCheckElement L tixiHandle xpath w
  if ret = SUCCESS then (.ok true, w1)
  else if ret = ELEMENT_NOT_FOUND then (.ok false, w1)
  else (.error (throwTixiError ret
    ("Checking element existence failed\n" ++ "xpath: " ++ xpath)), w1)

/-- The template `TixiGetAttributeInternal<T, GetFunc>`; `getFunc` answers with the status
code and the content of the scratch `value`. -/
def TixiGetAttributeInternal {T : Type} (tixiHandle : TixiDocumentHandle)
    (xpath attr : String)
    (getFunc : TixiDocumentHandle → String → String → World σ → (ReturnCode × T) × World σ)
    (w : World σ) : Except Exn T × World σ :=
  let ((ret, value), w1) := getFunc tixiHandle xpath attr w
  if ret ≠ SUCCESS then
    (.error (throwTixiError ret
      ("Error getting std::string attribute value\n" ++ "xpath: " ++ xpath ++ "\n"
        ++ "attribute: " ++ attr)), w1)
  else (.ok value, w1)

/-- Apply `f` to a returned value, as the caller of a forwarder does. -/
def mapResult {α β : Type} (f : α → β) (r : Except Exn α × World σ) :
    Except Exn β × World σ :=
  (match r.1 with
    | .ok v => .ok (f v)
    | .error x => .error x, r.2)

def TixiGetTextAttribute (tixiHandle : TixiDocumentHandle) (xpath attr : String)
    (w : World σ) : Except Exn String × World σ :=
  TixiGetAttributeInternal tixiHandle xpath attr (tixiGetTextAttribute L) w

def TixiGetDoubleAttribute (tixiHandle : TixiDocumentHandle) (xpath attr : String)
    (w : World σ) : Except Exn Double × World σ :=
  TixiGetAttributeInternal tixiHandle xpath attr (tixiGetDoubleAttribute L) w

def TixiGetBoolAttribute (tixiHandle : TixiDocumentHandle) (xpath attr : String)
    (w : World σ) : Except Exn Bool × World σ :=
  mapResult (fun n : Int => n != 0)
    (TixiGetAttributeInternal tixiHandle xpath attr (tixiGetBooleanAttribute L) w)

def TixiGetIntAttribute (tixiHandle : TixiDocumentHandle) (xpath attr : String)
    (w : World σ) : Except Exn Int × World σ :=
  TixiGetAttributeInternal tixiHandle xpath attr (tixiGetBooleanAttribute L) w

/-- The template `TixiGetElementInternal<T, GetFunc>`. -/
def TixiGetElementInternal {T : Type} (tixiHandle : TixiDocumentHandle) (xpath : String)
    (getFunc : TixiDocumentHandle → String → World σ → (ReturnCode × T) × World σ)
    (w : World σ) : Except Exn T × World σ :=
  let ((ret, value), w1) := getFunc tixiHandle xpath w
  if ret ≠ SUCCESS then
    (.error (throwTixiError ret ("Error getting element value\n" ++ "xpath: " ++ xpath)), w1)
  else (.ok value, w1)

def TixiGetTextElement (tixiHandle : TixiDocumentHandle) (xpath : String) (w : World σ) :
    Except Exn String × World σ :=
  TixiGetElementInternal tixiHandle xpath (tixiGetTextElement L) w

def TixiGetDoubleElement (tixiHandle : TixiDocumentHandle) (xpath : String) (w : World σ) :
    Except Exn Double × World σ :=
  TixiGetElementInternal tixiHandle xpath (tixiGetDoubleElement L) w

def TixiGetBoolElement (tixiHandle : TixiDocumentHandle) (xpath : String) (w : World σ) :
    Except Exn Bool × World σ :=
  mapResult (fun n : Int => n != 0)
    (TixiGetElementInternal tixiHandle xpath (tixiGetBooleanElement L) w)

def TixiGetIntElement (tixiHandle : TixiDocumentHandle) (xpath : String) (w : World σ) :
    Except Exn Int × World σ :=
  TixiGetElementInternal tixiHandle xpath (tixiGetIntegerElement L) w

/-- The template `TixiSaveAttributeInternal`; `saveFunc` is the add function with the
forwarded `args` already supplied. -/
def TixiSaveAttributeInternal (tixiHandle : TixiDocumentHandle) (xpath attr : String)
    (saveFunc : TixiDocumentHandle → String → String → World σ → ReturnCode × World σ)
    (w : World σ) : Except Exn Unit × World σ :=
  let (ret1, w1) := tixiCheckElement L tixiHandle xpath w
  if ret1 ≠ SUCCESS then
    (.error (throwTixiError ret1
      ("Error setting attribute, element does not exist\n" ++ "xpath: " ++ xpath)), w1)
  else
    let (ret2, w2) := saveFunc tixiHandle xpath attr w1
    if ret2 ≠ SUCCESS then
      (.error (throwTixiError ret2
        ("Error setting attribute\n" ++ "xpath: " ++ xpath ++ "\n"
          ++ "attribute: " ++ attr ++ "\n")), w2)
    else (.ok (), w2)

/-- The overload `TixiSaveAttribute(..., const std::string& value)`. -/
def TixiSaveAttribute_text (tixiHandle : TixiDocumentHandle) (xpath attr : String)
    (value : String) (w : World σ) : Except Exn Unit × World σ :=
  TixiSaveAttributeInternal L tixiHandle xpath attr
    (fun h p a => tixiAddTextAttribute L h p a value) w

/-- The overload `TixiSaveAttribute(..., double value)`. -/
def TixiSaveAttribute_double (tixiHandle : TixiDocumentHandle) (xpath attr : String)
    (value : Double) (w : World σ) : Except Exn Unit × World σ :=
  TixiSaveAttributeInternal L tixiHandle xpath attr
    (fun h p a => tixiAddDoubleAttribute L h p a value none) w

/-- The overload `TixiSaveAttribute(..., bool value)`. -/
def TixiSaveAttribute_bool (tixiHandle : TixiDocumentHandle) (xpath attr : String)
    (value : Bool) (w : World σ) : Except Exn Unit × World σ :=
  TixiSaveAttributeInternal L tixiHandle xpath attr
    (fun h p a => tixiAddIntegerAttribute L h p a (if value then 1 else 0) none) w

/-- The overload `TixiSaveAttribute(..., int value)`. -/
def TixiSaveAttribute_int (tixiHandle : TixiDocumentHandle) (xpath attr : String)
    (value : Int) (w : World σ) : Except Exn Unit × World σ :=
  TixiSaveAttributeInternal L tixiHandle xpath attr
    (fun h p a => tixiAddIntegerAttribute L h p a value none) w

/-- The template `TixiSaveElementInternal`; `saveFunc` is the add function with the
forwarded `args` already supplied. -/
def TixiSaveElementInternal (tixiHandle : TixiDocumentHandle) (xpath : String)
    (saveFunc : TixiDocumentHandle → String → String → World σ → ReturnCode × World σ)
    (w : World σ) : Except Exn Unit × World σ :=
  let sp := splitXPath xpath
  -- check if the parent elements exist
  let (ret1, w1) := tixiCheckElement L tixiHandle sp.parentXPath w
  if ret1 ≠ SUCCESS then
    (.error (throwTixiError ret1
      ("Error saving element, parent element does not exist\n" ++ "parent xpath: "
        ++ sp.parentXPath)), w1)
  else
    -- first, delete the element
    match TixiCheckElement L tixiHandle xpath w1 with
    | (.error x, w2) => (.error x, w2)
    | (.ok exists_, w2) =>
      let removed : Option Exn × World σ :=
        if exists_ then
          let (ret, w3) := tixiRemoveElement L tixiHandle xpath w2
          if ret ≠ SUCCESS then
            (some (throwTixiError ret
              ("Error saving element, failed to remove previous element\n" ++ "xpath: "
                ++ xpath)), w3)
          else (none, w3)
        else (none, w2)
      match removed with
      | (some x, w3) => (.error x, w3)
      | (none, w3) =>
        -- then, the new element is created with the text
        let (ret2, w4) := saveFunc tixiHandle sp.parentXPath sp.element w3
        if ret2 ≠ SUCCESS then
          (.error (throwTixiError ret2 ("Error saving element\n" ++ "xpath: " ++ xpath)), w4)
        else (.ok (), w4)

/-- The overload `TixiSaveElement(..., const std::string& value)`. -/
def TixiSaveElement_text (tixiHandle : TixiDocumentHandle) (xpath : String) (value : String)
    (w : World σ) : Except Exn Unit × World σ :=
  TixiSaveElementInternal L tixiHandle xpath
    (fun h p e => tixiAddTextElement L h p e value) w

/-- The overload `TixiSaveElement(..., double value)`. -/
def TixiSaveElement_double (tixiHandle : TixiDocumentHandle) (xpath : String)
    (value : Double) (w : World σ) : Except Exn Unit × World σ :=
  TixiSaveElementInternal L tixiHandle xpath
    (fun h p e => tixiAddDoubleElement L h p e value none) w

/-- The overload `TixiSaveElement(..., bool value)`. -/
def TixiSaveElement_bool (tixiHandle : TixiDocumentHandle) (xpath : String) (value : Bool)
    (w : World σ) : Except Exn Unit × World σ :=
  TixiSaveElementInternal L tixiHandle xpath
    (fun h p e => tixiAddBooleanElement L h p e (if value then 0 else 1)) w

/-- The overload `TixiSaveElement(..., int value)`. -/
def TixiSaveElement_int (tixiHandle : TixiDocumentHandle) (xpath : String) (value : Int)
    (w : World σ) : Except Exn Unit × World σ :=
  TixiSaveElementInternal L tixiHandle xpath
    (fun h p e => tixiAddIntegerElement L h p e value none) w

end wrappers

/-! ## A document model -/

/-- The content of an element or of an attribute, with the kind it was written as. -/
inductive Value where
  | text (s : String)
  | double (d : Double)
  | integer (n : Int)
  | boolean (b : Bool)
  deriving DecidableEq, Repr

/-- An element of a document: its full path, its content and its attributes. -/
structure Node where
  path : String
  value : Value
  attributes : List (String × Value)
  deriving DecidableEq, Repr

/-- Modelled from the spec: the document behind a handle, which the library owns and whose
code is not part of the sources. It is a list of elements in document order; several
elements may have the same path. "Remove deletes the element and add appends one child";
a typed retrieval gives back what the add call of the same kind wrote. -/
structure Document where
  handle : TixiDocumentHandle
  nodes : List Node
  deriving DecidableEq, Repr

/-- The elements at a path. -/
def Document.elementsAt (d : Document) (p : String) : List Node :=
  d.nodes.filter (fun n => n.path = p)

/-- An absolute path starts with the separator. -/
def isAbsolute (p : String) : Bool := p.data.head? = some '/'

/-- The path `q` lies strictly below the path `p`. -/
def isBelow (p q : String) : Bool := q.data.take (p.data.length + 1) = p.data ++ ['/']

/-- Modelled from the spec: `tixiCheckElement`. The path must be absolute and name exactly
one element. -/
def Document.checkElement (d : Document) (h : TixiDocumentHandle) (p : String) : ReturnCode :=
  if h ≠ d.handle then INVALID_HANDLE
  else if ¬ isAbsolute p then INVALID_XPATH
  else match d.elementsAt p with
    | [] => ELEMENT_NOT_FOUND
    | [_] => SUCCESS
    | _ :: _ :: _ => ELEMENT_PATH_NOT_UNIQUE

/-- The element a path names, or the status code of the failed check. -/
def Document.element (d : Document) (h : TixiDocumentHandle) (p : String) :
    Except ReturnCode Node :=
  if h ≠ d.handle then .error INVALID_HANDLE
  else if ¬ isAbsolute p then .error INVALID_XPATH
  else match d.elementsAt p with
    | [] => .error ELEMENT_NOT_FOUND
    | [n] => .ok n
    | _ :: _ :: _ => .error ELEMENT_PATH_NOT_UNIQUE

/-- The attribute of an element, or the status code of the failed lookup. -/
def Document.attributeValue (d : Document) (h : TixiDocumentHandle) (p a : String) :
    Except ReturnCode Value :=
  match d.element h p with
  | .error r => .error r
  | .ok n =>
    match n.attributes.lookup a with
    | none => .error ATTRIBUTE_NOT_FOUND
    | some v => .ok v

/-- Modelled from the spec: `tixiCheckAttribute`. -/
def Document.checkAttribute (d : Document) (h : TixiDocumentHandle) (p a : String) :
    ReturnCode :=
  match d.attributeValue h p a with
  | .error r => r
  | .ok _ => SUCCESS

/-- Read a content as text. -/
def Value.asText : Value → ReturnCode × String
  | .text s => (SUCCESS, s)
  | _ => (FAILED, "")

/-- Read a content as a double. -/
def Value.asDouble : Value → ReturnCode × Double
  | .double x => (SUCCESS, x)
  | _ => (FAILED, ⟨0⟩)

/-- Read a content as an integer. -/
def Value.asInteger : Value → ReturnCode × Int
  | .integer n => (SUCCESS, n)
  | _ => (FAILED, 0)

/-- Read a content as a boolean: a stored boolean, or one of the integers 0 and 1, which
are written the way the booleans are. Anything else is not a boolean. -/
def Value.asBoolean : Value → ReturnCode × Int
  | .boolean b => (SUCCESS, if b then 1 else 0)
  | .integer 0 => (SUCCESS, 0)
  | .integer 1 => (SUCCESS, 1)
  | _ => (FAILED, 0)

/-- A typed retrieval of an attribute. -/
def Document.getAttribute {T : Type} (read : Value → ReturnCode × T) (dflt : T)
    (d : Document) (h : TixiDocumentHandle) (p a : String) : ReturnCode × T :=
  match d.attributeValue h p a with
  | .error r => (r, dflt)
  | .ok v => read v

/-- A typed retrieval of an element. -/
def Document.getElement {T : Type} (read : Value → ReturnCode × T) (dflt : T)
    (d : Document) (h : TixiDocumentHandle) (p : String) : ReturnCode × T :=
  match d.element h p with
  | .error r => (r, dflt)
  | .ok n => read n.value

/-- Modelled from the spec: `tixiRemoveElement` deletes the element and what lies below
it. -/
def Document.removeElement (d : Document) (h : TixiDocumentHandle) (p : String) :
    ReturnCode × Document :=
  let r := d.checkElement h p
  if r ≠ SUCCESS then (r, d)
  else (SUCCESS, { d with nodes := d.nodes.filter (fun n => ¬ (n.path = p ∨ isBelow p n.path)) })

/-- Modelled from the spec: the `tixiAdd...Element` functions append one child, named
`name`, to the element `parent`. -/
def Document.addElement (d : Document) (h : TixiDocumentHandle) (parent name : String)
    (v : Value) : ReturnCode × Document :=
  let r := d.checkElement h parent
  if r ≠ SUCCESS then (r, d)
  else (SUCCESS, { d with nodes := d.nodes ++ [⟨parent ++ "/" ++ name, v, []⟩] })

/-- Set an attribute in an attribute list, replacing an earlier one of that name. -/
def setAttribute (attrs : List (String × Value)) (a : String) (v : Value) :
    List (String × Value) :=
  attrs.filter (fun kv => kv.1 ≠ a) ++ [(a, v)]

/-- Modelled from the spec: the `tixiAdd...Attribute` functions set the attribute `a` of the
element at `p`. -/
def Document.addAttribute (d : Document) (h : TixiDocumentHandle) (p a : String)
    (v : Value) : ReturnCode × Document :=
  let r := d.checkElement h p
  if r ≠ SUCCESS then (r, d)
  else (SUCCESS, { d with nodes := d.nodes.map (fun n =>
    if n.path = p then { n with attributes := setAttribute n.attributes a v } else n) })

/-- Modelled from the spec: the library over the document model. A boolean is written from
an integer that is zero for false and anything else for true. -/
def modelTixi : Tixi Document where
  checkElement := Document.checkElement
  checkAttribute := Document.checkAttribute
  getTextAttribute := Document.getAttribute Value.asText ""
  getDoubleAttribute := Document.getAttribute Value.asDouble ⟨0⟩
  getBooleanAttribute := Document.getAttribute Value.asBoolean 0
  getIntegerAttribute := Document.getAttribute Value.asInteger 0
  getTextElement := Document.getElement Value.asText ""
  getDoubleElement := Document.getElement Value.asDouble ⟨0⟩
  getBooleanElement := Document.getElement Value.asBoolean 0
  getIntegerElement := Document.getElement Value.asInteger 0
  removeElement := Document.removeElement
  addTextAttribute := fun d h p a v => d.addAttribute h p a (.text v)
  addDoubleAttribute := fun d h p a v _ => d.addAttribute h p a (.double v)
  addIntegerAttribute := fun d h p a v _ => d.addAttribute h p a (.integer v)
  addTextElement := fun d h p e v => d.addElement h p e (.text v)
  addDoubleElement := fun d h p e v _ => d.addElement h p e (.double v)
  addBooleanElement := fun d h p e v => d.addElement h p e (.boolean (v != 0))
  addIntegerElement := fun d h p e v _ => d.addElement h p e (.integer v)

/-- A document with the elements `/a` and `/a/b`, neither with an attribute, open under the
handle 1. -/
def sampleDocument : Document :=
  { handle := 1
    nodes := [⟨"/a", .text "", []⟩, ⟨"/a/b", .text "old", []⟩] }

/-- A world on the sample document in which no call has been made yet. -/
def sampleWorld : World Document := { doc := sampleDocument, calls := [] }

/-- The arguments an element setter forwards: which add function, and its value arguments. -/
inductive ElementArgs where
  | text (text : String)
  | double (number : Double) (format : Option String)
  | boolean (boolean : Int)
  | integer (number : Int) (format : Option String)
  deriving DecidableEq, Repr

/-- The add-element call that forwarded arguments stand for. -/
def ElementArgs.call (a : ElementArgs) (h : TixiDocumentHandle) (parentPath name : String) :
    Call :=
  match a with
  | .text v => .addTextElement h parentPath name v
  | .double v f => .addDoubleElement h parentPath name v f
  | .boolean v => .addBooleanElement h parentPath name v
  | .integer v f => .addIntegerElement h parentPath name v f

/-- The add-element function with its forwarded arguments supplied. -/
def addElementFunc {σ : Type} (L : Tixi σ) (a : ElementArgs) :
    TixiDocumentHandle → String → String → World σ → ReturnCode × World σ :=
  match a with
  | .text v => fun h p e => tixiAddTextElement L h p e v
  | .double v f => fun h p e => tixiAddDoubleElement L h p e v f
  | .boolean v => fun h p e => tixiAddBooleanElement L h p e v
  | .integer v f => fun h p e => tixiAddIntegerElement L h p e v f

/-- The content that forwarded arguments write in the document model. -/
def ElementArgs.value : ElementArgs → Value
  | .text v => .text v
  | .double v _ => .double v
  | .boolean v => .boolean (v != 0)
  | .integer v _ => .integer v

/-- The arguments an attribute setter forwards. -/
inductive AttributeArgs where
  | text (text : String)
  | double (number : Double) (format : Option String)
  | integer (number : Int) (format : Option String)
  deriving DecidableEq, Repr

/-- The add-attribute call that forwarded arguments stand for. -/
def AttributeArgs.call (a : AttributeArgs) (h : TixiDocumentHandle) (xpath attr : String) :
    Call :=
  match a with
  | .text v => .addTextAttribute h xpath attr v
  | .double v f => .addDoubleAttribute h xpath attr v f
  | .integer v f => .addIntegerAttribute h xpath attr v f

/-- The add-attribute function with its forwarded arguments supplied. -/
def addAttributeFunc {σ : Type} (L : Tixi σ) (a : AttributeArgs) :
    TixiDocumentHandle → String → String → World σ → ReturnCode × World σ :=
  match a with
  | .text v => fun h p at_ => tixiAddTextAttribute L h p at_ v
  | .double v f => fun h p at_ => tixiAddDoubleAttribute L h p at_ v f
  | .integer v f => fun h p at_ => tixiAddIntegerAttribute L h p at_ v f

/-- Whether a call is one of the add-attribute calls. -/
def Call.isAddAttribute : Call → Bool
  | .addTextAttribute .. => true
  | .addDoubleAttribute .. => true
  | .addIntegerAttribute .. => true
  | _ => false

/-- Whether a call is one of the add-element calls. -/
def Call.isAddElement : Call → Bool
  | .addTextElement .. => true
  | .addDoubleElement .. => true
  | .addBooleanElement .. => true
  | .addIntegerElement .. => true
  | _ => false

/-- Whether a call is a remove-element call. -/
def Call.isRemoveElement : Call → Bool
  | .removeElement .. => true
  | _ => false

/-- The library function behind forwarded add-attribute arguments. -/
def AttributeArgs.apply {σ : Type} (a : AttributeArgs) (L : Tixi σ) (d : σ)
    (h : TixiDocumentHandle) (xpath attr : String) : ReturnCode × σ :=
  match a with
  | .text v => L.addTextAttribute d h xpath attr v
  | .double v f => L.addDoubleAttribute d h xpath attr v f
  | .integer v f => L.addIntegerAttribute d h xpath attr v f

/-- The library function behind forwarded add-element arguments. -/
def ElementArgs.apply {σ : Type} (a : ElementArgs) (L : Tixi σ) (d : σ)
    (h : TixiDocumentHandle) (parentPath name : String) : ReturnCode × σ :=
  match a with
  | .text v => L.addTextElement d h parentPath name v
  | .double v f => L.addDoubleElement d h parentPath name v f
  | .boolean v => L.addBooleanElement d h parentPath name v
  | .integer v f => L.addIntegerElement d h parentPath name v f

/-- The sample document after the integer 42 has been written to the attribute `x` of
`/a/b`. -/
def attributeDocument : Document :=
  { handle := 1
    nodes := [⟨"/a", .text "", []⟩, ⟨"/a/b", .text "old", [("x", .integer 42)]⟩] }

/-- A world on that document in which no call has been made yet. -/
def attributeWorld : World Document := { doc := attributeDocument, calls := [] }

/-- The document model once the document has been saved: a removal is refused with
`ALREADY_SAVED`. -/
def savedTixi : Tixi Document :=
  { modelTixi with removeElement := fun d _ _ => (ALREADY_SAVED, d) }

/-- The document model with boolean retrievals that leave `n` in the scratch value. -/
def booleanTixi (n : Int) : Tixi Document :=
  { modelTixi with
    getBooleanAttribute := fun _ _ _ _ => (SUCCESS, n)
    getBooleanElement := fun _ _ _ => (SUCCESS, n) }

/-! # Theorems -/

/-! ## Status codes and their names -/

theorem definedCodes_names : ∀ p ∈ definedCodes, errorToString p.1 = .ok p.2 := by
  decide

theorem definedCodes_nodup_names : (definedCodes.map Prod.snd).Nodup := by
  decide

theorem mem_definedCodes_of_defined (ret : ReturnCode) (h : isDefinedCode ret) :
    ∃ name, (ret, name) ∈ definedCodes := by
  obtain ⟨h0, h1⟩ := h
  simp only [SUCCESS, UID_LINK_BROKEN] at h0 h1
  interval_cases ret <;> simp [definedCodes, SUCCESS, FAILED, INVALID_XML_NAME, NOT_WELL_FORMED,
    NOT_SCHEMA_COMPLIANT, NOT_DTD_COMPLIANT, INVALID_HANDLE, INVALID_XPATH, ELEMENT_NOT_FOUND,
    INDEX_OUT_OF_RANGE, NO_POINT_FOUND, NOT_AN_ELEMENT, ATTRIBUTE_NOT_FOUND, OPEN_FAILED,
    OPEN_SCHEMA_FAILED, OPEN_DTD_FAILED, CLOSE_FAILED, ALREADY_SAVED, ELEMENT_PATH_NOT_UNIQUE,
    NO_ELEMENT_NAME, NO_CHILDREN, CHILD_NOT_FOUND, EROROR_CREATE_ROOT_NODE,
    DEALLOCATION_FAILED, NO_NUMBER, NO_ATTRIBUTE_NAME, STRING_TRUNCATED, NON_MATCHING_NAME,
    NON_MATCHING_SIZE, MATRIX_DIMENSION_ERROR, COORDINATE_NOT_FOUND, UNKNOWN_STORAGE_MODE,
    UID_NOT_UNIQUE, UID_DONT_EXISTS, UID_LINK_BROKEN]

theorem defined_of_mem_definedCodes : ∀ p ∈ definedCodes, isDefinedCode p.1 := by
  decide

theorem errorToString_defined (ret : ReturnCode) (h : isDefinedCode ret) :
    ∃ name, (ret, name) ∈ definedCodes ∧ errorToString ret = .ok name := by
  obtain ⟨name, hm⟩ := mem_definedCodes_of_defined ret h
  exact ⟨name, hm, definedCodes_names _ hm⟩

theorem errorToString_undefined (ret : ReturnCode) (h : ¬ isDefinedCode ret) :
    errorToString ret = .error (.logic_error "Invalid ReturnCode") := by
  have h' : ret < 0 ∨ 34 < ret := by
    simp only [isDefinedCode, SUCCESS, UID_LINK_BROKEN] at h
    unfold ReturnCode at *
    omega
  unfold errorToString
  simp only [SUCCESS, FAILED, INVALID_XML_NAME, NOT_WELL_FORMED,
    NOT_SCHEMA_COMPLIANT, NOT_DTD_COMPLIANT, INVALID_HANDLE, INVALID_XPATH, ELEMENT_NOT_FOUND,
    INDEX_OUT_OF_RANGE, NO_POINT_FOUND, NOT_AN_ELEMENT, ATTRIBUTE_NOT_FOUND, OPEN_FAILED,
    OPEN_SCHEMA_FAILED, OPEN_DTD_FAILED, CLOSE_FAILED, ALREADY_SAVED, ELEMENT_PATH_NOT_UNIQUE,
    NO_ELEMENT_NAME, NO_CHILDREN, CHILD_NOT_FOUND, EROROR_CREATE_ROOT_NODE,
    DEALLOCATION_FAILED, NO_NUMBER, NO_ATTRIBUTE_NAME, STRING_TRUNCATED, NON_MATCHING_NAME,
    NON_MATCHING_SIZE, MATRIX_DIMENSION_ERROR, COORDINATE_NOT_FOUND, UNKNOWN_STORAGE_MODE,
    UID_NOT_UNIQUE, UID_DONT_EXISTS, UID_LINK_BROKEN]
  unfold ReturnCode at *
  simp (disch := omega) only [if_neg]
theorem errorToString_injOn (r1 r2 : ReturnCode) (h1 : isDefinedCode r1)
    (h2 : isDefinedCode r2) (h : errorToString r1 = errorToString r2) : r1 = r2 := by
  obtain ⟨n1, m1, e1⟩ := errorToString_defined r1 h1
  obtain ⟨n2, m2, e2⟩ := errorToString_defined r2 h2
  rw [e1, e2] at h
  have hn : n1 = n2 := by injection h
  subst hn
  have := List.inj_on_of_nodup_map definedCodes_nodup_names m1 m2 rfl
  exact congrArg Prod.fst this

/-- C3: `errorToString` names every one of the 35 defined status codes (`SUCCESS` through
`UID_LINK_BROKEN`) with the code's own identifier, no two defined codes get the same name, and
for every value outside the defined set it returns no string but throws the logic error. -/
theorem errorToString_spec :
    definedCodes.length = 35 ∧
    (∀ ret : ReturnCode, isDefinedCode ret ↔ ∃ name, (ret, name) ∈ definedCodes) ∧
    (∀ p ∈ definedCodes, errorToString p.1 = .ok p.2) ∧
    (∀ ret : ReturnCode, isDefinedCode ret → ∃ name, errorToString ret = .ok name) ∧
    (∀ r1 r2 : ReturnCode, isDefinedCode r1 → isDefinedCode r2 →
      errorToString r1 = errorToString r2 → r1 = r2) ∧
    (∀ ret : ReturnCode, ¬ isDefinedCode ret →
      errorToString ret = .error (.logic_error "Invalid ReturnCode")) := by
  refine ⟨rfl, ?_, definedCodes_names, ?_, errorToString_injOn, errorToString_undefined⟩
  · intro ret
    constructor
    · exact mem_definedCodes_of_defined ret
    · rintro ⟨name, hm⟩
      exact defined_of_mem_definedCodes _ hm
  · intro ret h
    obtain ⟨name, _, e⟩ := errorToString_defined ret h
    exact ⟨name, e⟩

/-- The witness of C3: 8 and 12 are defined codes with different names, and 35 and -1 are
not defined codes. -/
theorem errorToString_spec_witness :
    (isDefinedCode 8 ∧ ∃ name, errorToString 8 = .ok name) ∧
    (isDefinedCode 8 ∧ isDefinedCode 12 ∧
      (errorToString 8 = errorToString 12 → (8 : ReturnCode) = 12)) ∧
    (¬ isDefinedCode 35 ∧ errorToString 35 = .error (.logic_error "Invalid ReturnCode")) ∧
    (¬ isDefinedCode (-1) ∧
      errorToString (-1) = .error (.logic_error "Invalid ReturnCode")) :=
  ⟨⟨by decide, errorToString_spec.2.2.2.1 8 (by decide)⟩,
   ⟨by decide, by decide, errorToString_spec.2.2.2.2.1 8 12 (by decide) (by decide)⟩,
   ⟨by decide, errorToString_spec.2.2.2.2.2 35 (by decide)⟩,
   ⟨by decide, errorToString_spec.2.2.2.2.2 (-1) (by decide)⟩⟩

/-! ## Path splitting -/

theorem find_last_of_eq_none (l : List Char) (c : Char) :
    find_last_of l c = none ↔ c ∉ l := by
  induction l with
  | nil => simp [find_last_of]
  | cons x xs ih =>
    unfold find_last_of
    cases hx : find_last_of xs c with
    | none =>
      have hc : c ∉ xs := ih.mp hx
      by_cases hxc : x = c
      · simp [hxc]
      · simp [hxc, hc, Ne.symm hxc]
    | some i =>
      have hc : c ∈ xs := by
        by_contra hn
        rw [ih.mpr hn] at hx
        cases hx
      simp [hc]

theorem find_last_of_eq_some (l : List Char) (c : Char) (i : Nat)
    (h : find_last_of l c = some i) :
    l = l.take i ++ c :: l.drop (i + 1) ∧ c ∉ l.drop (i + 1) := by
  induction l generalizing i with
  | nil => simp [find_last_of] at h
  | cons x xs ih =>
    unfold find_last_of at h
    cases hx : find_last_of xs c with
    | none =>
      rw [hx] at h
      have hc : c ∉ xs := (find_last_of_eq_none xs c).mp hx
      by_cases hxc : x = c
      · simp [hxc] at h
        subst h
        simp [hxc, hc]
      · simp [hxc] at h
    | some j =>
      rw [hx] at h
      simp at h
      subst h
      obtain ⟨h1, h2⟩ := ih j hx
      refine ⟨?_, ?_⟩
      · simp only [List.take_succ_cons, List.drop_succ_cons, List.cons_append]
        rw [← h1]
      · simpa using h2

theorem find_last_of_lt (l : List Char) (c : Char) (i : Nat)
    (h : find_last_of l c = some i) : i < l.length := by
  have h1 := (find_last_of_eq_some l c i h).1
  by_contra hn
  have hlen := congrArg List.length h1
  simp at hlen
  omega


theorem splitXPath_eq_of_some (s : String) (pos : Nat)
    (h : find_last_of s.data '/' = some pos) :
    splitXPath s = ⟨⟨s.data.take pos⟩, ⟨s.data.drop (pos + 1)⟩⟩ := by
  simp [splitXPath, h, substr, substrFrom]

theorem splitXPath_eq_of_none (s : String) (h : find_last_of s.data '/' = none) :
    splitXPath s = ⟨"", s⟩ := by
  simp [splitXPath, h]

theorem splitXPath_mem (s : String) (h : '/' ∈ s.data) :
    ∃ pos, find_last_of s.data '/' = some pos := by
  cases hf : find_last_of s.data '/' with
  | none => exact absurd h ((find_last_of_eq_none _ _).mp hf)
  | some pos => exact ⟨pos, rfl⟩

/-- C2: `splitXPath` never fails (it is a total function); for a path with a `/` it returns
the part before the last `/` and the part after it, and for a path without `/` it returns the
empty string and the whole path. So `a/b/c` splits into `a/b` and `c`, `leaf` into the empty
string and `leaf`, and the empty string into two empty strings. -/
theorem splitXPath_spec (s : String) :
    ('/' ∈ s.data →
      ∃ pos, pos < s.data.length ∧ s.data[pos]? = some '/' ∧
        (∀ j, pos < j → s.data[j]? ≠ some '/') ∧
        splitXPath s = ⟨⟨s.data.take pos⟩, ⟨s.data.drop (pos + 1)⟩⟩) ∧
    ('/' ∉ s.data → splitXPath s = ⟨"", s⟩) ∧
    splitXPath "a/b/c" = ⟨"a/b", "c"⟩ ∧
    splitXPath "leaf" = ⟨"", "leaf"⟩ ∧
    splitXPath "" = ⟨"", ""⟩ := by
  refine ⟨?_, ?_, by decide, by decide, by decide⟩
  · intro h
    obtain ⟨pos, hp⟩ := splitXPath_mem s h
    have hlt := find_last_of_lt _ _ _ hp
    obtain ⟨h1, h2⟩ := find_last_of_eq_some _ _ _ hp
    refine ⟨pos, hlt, ?_, ?_, splitXPath_eq_of_some s pos hp⟩
    · have hlen : (s.data.take pos).length = pos := by
        rw [List.length_take]; omega
      rw [h1, List.getElem?_append_right (by omega)]
      simp [hlen]
    · intro j hj hget
      apply h2
      have : (s.data.drop (pos + 1))[j - (pos + 1)]? = some '/' := by
        rw [List.getElem?_drop]
        have : pos + 1 + (j - (pos + 1)) = j := by omega
        rw [this]; exact hget
      exact List.getElem?_mem this
  · intro h
    exact splitXPath_eq_of_none s ((find_last_of_eq_none _ _).mpr h)

/-- The witness of C2: the path `/a/b` has a separator, and the path `leaf` has none. -/
theorem splitXPath_spec_witness :
    ('/' ∈ "/a/b".data ∧
      ∃ pos, pos < "/a/b".data.length ∧ "/a/b".data[pos]? = some '/' ∧
        (∀ j, pos < j → "/a/b".data[j]? ≠ some '/') ∧
        splitXPath "/a/b" = ⟨⟨"/a/b".data.take pos⟩, ⟨"/a/b".data.drop (pos + 1)⟩⟩) ∧
    ('/' ∉ "leaf".data ∧ splitXPath "leaf" = ⟨"", "leaf"⟩) :=
  ⟨⟨by decide, (splitXPath_spec "/a/b").1 (by decide)⟩,
   ⟨by decide, (splitXPath_spec "leaf").2.1 (by decide)⟩⟩

theorem splitXPath_join (s : String) (h : '/' ∈ s.data) :
    (splitXPath s).parentXPath ++ "/" ++ (splitXPath s).element = s := by
  obtain ⟨pos, hp⟩ := splitXPath_mem s h
  rw [splitXPath_eq_of_some s pos hp]
  apply String.ext
  have h1 := (find_last_of_eq_some _ _ _ hp).1
  simp only [String.data_append]
  conv_rhs => rw [h1]
  simp

theorem splitXPath_element_no_sep (s : String) : '/' ∉ (splitXPath s).element.data := by
  cases hf : find_last_of s.data '/' with
  | none =>
    rw [splitXPath_eq_of_none s hf]
    exact (find_last_of_eq_none _ _).mp hf
  | some pos =>
    rw [splitXPath_eq_of_some s pos hf]
    exact (find_last_of_eq_some _ _ _ hf).2

theorem splitXPath_length (s : String) :
    (splitXPath s).parentXPath.length + (splitXPath s).element.length ≤ s.length := by
  cases hf : find_last_of s.data '/' with
  | none =>
    rw [splitXPath_eq_of_none s hf]
    simp
  | some pos =>
    rw [splitXPath_eq_of_some s pos hf]
    have := find_last_of_lt _ _ _ hf
    simp only [String.length_mk, List.length_take, List.length_drop, String.length]
    omega

/-! ## Raising a `TixiError` -/

theorem throwTixiError_defined (ret : ReturnCode) (message : String) (h : isDefinedCode ret) :
    ∃ name, (ret, name) ∈ definedCodes ∧
      throwTixiError ret message = .tixiError ⟨ret, message ++ "\nReturnCode: " ++ name⟩ := by
  obtain ⟨name, hm, e⟩ := errorToString_defined ret h
  exact ⟨name, hm, by simp [throwTixiError, TixiError.ofCodeMessage, e]⟩

theorem throwTixiError_undefined (ret : ReturnCode) (message : String)
    (h : ¬ isDefinedCode ret) :
    throwTixiError ret message = .logic_error "Invalid ReturnCode" := by
  simp [throwTixiError, TixiError.ofCodeMessage, errorToString_undefined ret h]

/-! ## Existence checks -/

theorem TixiCheckAttribute_eq {σ : Type} (L : Tixi σ) (h : TixiDocumentHandle)
    (xpath attr : String) (w : World σ) :
    TixiCheckAttribute L h xpath attr w =
      (if L.checkAttribute w.doc h xpath attr = SUCCESS then .ok true
        else if L.checkAttribute w.doc h xpath attr = ATTRIBUTE_NOT_FOUND then .ok false
        else .error (throwTixiError (L.checkAttribute w.doc h xpath attr)
          ("Checking attribute existence failed\n" ++ "xpath: " ++ xpath ++ "\n"
            ++ "attribute: " ++ attr)),
       w.log (.checkAttribute h xpath attr)) := by
  unfold TixiCheckAttribute tixiCheckAttribute
  split_ifs <;> simp_all

theorem TixiCheckElement_eq {σ : Type} (L : Tixi σ) (h : TixiDocumentHandle)
    (xpath : String) (w : World σ) :
    TixiCheckElement L h xpath w =
      (if L.checkElement w.doc h xpath = SUCCESS then .ok true
        else if L.checkElement w.doc h xpath = ELEMENT_NOT_FOUND then .ok false
        else .error (throwTixiError (L.checkElement w.doc h xpath)
          ("Checking element existence failed\n" ++ "xpath: " ++ xpath)),
       w.log (.checkElement h xpath)) := by
  unfold TixiCheckElement tixiCheckElement
  split_ifs <;> simp_all

/-- C1: whatever status code `r` the underlying check reports, `TixiCheckAttribute` returns
true when `r` is `SUCCESS`, false when `r` is `ATTRIBUTE_NOT_FOUND`, and for every other
status code it raises a `TixiError` that carries `r`; it returns false for no status other
than `ATTRIBUTE_NOT_FOUND`. `TixiCheckElement` obeys the same law with `ELEMENT_NOT_FOUND`. -/
theorem TixiCheck_three_way {σ : Type} (L : Tixi σ) (h : TixiDocumentHandle)
    (xpath attr : String) (w : World σ) (r : ReturnCode) :
    (L.checkAttribute w.doc h xpath attr = r →
      (r = SUCCESS → (TixiCheckAttribute L h xpath attr w).1 = .ok true) ∧
      (r = ATTRIBUTE_NOT_FOUND → (TixiCheckAttribute L h xpath attr w).1 = .ok false) ∧
      (r ≠ SUCCESS → r ≠ ATTRIBUTE_NOT_FOUND →
        (TixiCheckAttribute L h xpath attr w).1 = .error (throwTixiError r
          ("Checking attribute existence failed\n" ++ "xpath: " ++ xpath ++ "\n"
            ++ "attribute: " ++ attr))) ∧
      (r ≠ SUCCESS → r ≠ ATTRIBUTE_NOT_FOUND → isDefinedCode r →
        ∃ e : TixiError, (TixiCheckAttribute L h xpath attr w).1 = .error (.tixiError e) ∧
          e.m_ret = r) ∧
      ((TixiCheckAttribute L h xpath attr w).1 = .ok false → r = ATTRIBUTE_NOT_FOUND)) ∧
    (L.checkElement w.doc h xpath = r →
      (r = SUCCESS → (TixiCheckElement L h xpath w).1 = .ok true) ∧
      (r = ELEMENT_NOT_FOUND → (TixiCheckElement L h xpath w).1 = .ok false) ∧
      (r ≠ SUCCESS → r ≠ ELEMENT_NOT_FOUND →
        (TixiCheckElement L h xpath w).1 = .error (throwTixiError r
          ("Checking element existence failed\n" ++ "xpath: " ++ xpath))) ∧
      (r ≠ SUCCESS → r ≠ ELEMENT_NOT_FOUND → isDefinedCode r →
        ∃ e : TixiError, (TixiCheckElement L h xpath w).1 = .error (.tixiError e) ∧
          e.m_ret = r) ∧
      ((TixiCheckElement L h xpath w).1 = .ok false → r = ELEMENT_NOT_FOUND)) := by
  constructor
  · intro hr
    rw [TixiCheckAttribute_eq, hr]
    refine ⟨?_, ?_, ?_, ?_, ?_⟩
    · intro h1; simp [h1]
    · intro h1; subst h1; simp [ATTRIBUTE_NOT_FOUND, SUCCESS]
    · intro h1 h2
      rw [if_neg h1, if_neg h2]
    · intro h1 h2 h3
      obtain ⟨name, _, e⟩ := throwTixiError_defined r
        ("Checking attribute existence failed\n" ++ "xpath: " ++ xpath ++ "\n"
            ++ "attribute: " ++ attr) h3
      rw [if_neg h1, if_neg h2, e]
      exact ⟨_, rfl, rfl⟩
    · intro h1
      by_contra h2
      by_cases h3 : r = SUCCESS
      · simp [h3] at h1
      · simp [h2, h3] at h1
  · intro hr
    rw [TixiCheckElement_eq, hr]
    refine ⟨?_, ?_, ?_, ?_, ?_⟩
    · intro h1; simp [h1]
    · intro h1; subst h1; simp [ELEMENT_NOT_FOUND, SUCCESS]
    · intro h1 h2
      rw [if_neg h1, if_neg h2]
    · intro h1 h2 h3
      obtain ⟨name, _, e⟩ := throwTixiError_defined r
        ("Checking element existence failed\n" ++ "xpath: " ++ xpath) h3
      rw [if_neg h1, if_neg h2, e]
      exact ⟨_, rfl, rfl⟩
    · intro h1
      by_contra h2
      by_cases h3 : r = SUCCESS
      · simp [h3] at h1
      · simp [h2, h3] at h1


/-- The witness of C1 on the document model: an attribute that is present, one that is
absent, and a handle that is not open; an element that is present, one that is absent, and a
path that is not absolute. -/
theorem TixiCheck_three_way_witness :
    (modelTixi.checkAttribute attributeWorld.doc 1 "/a/b" "x" = SUCCESS ∧
      (TixiCheckAttribute modelTixi 1 "/a/b" "x" attributeWorld).1 = .ok true) ∧
    (modelTixi.checkAttribute sampleWorld.doc 1 "/a/b" "x" = ATTRIBUTE_NOT_FOUND ∧
      (TixiCheckAttribute modelTixi 1 "/a/b" "x" sampleWorld).1 = .ok false) ∧
    (modelTixi.checkAttribute sampleWorld.doc 2 "/a/b" "x" = INVALID_HANDLE ∧
      ∃ e : TixiError, (TixiCheckAttribute modelTixi 2 "/a/b" "x" sampleWorld).1
        = .error (.tixiError e) ∧ e.m_ret = INVALID_HANDLE) ∧
    (modelTixi.checkElement sampleWorld.doc 1 "/a/b" = SUCCESS ∧
      (TixiCheckElement modelTixi 1 "/a/b" sampleWorld).1 = .ok true) ∧
    (modelTixi.checkElement sampleWorld.doc 1 "/a/c" = ELEMENT_NOT_FOUND ∧
      (TixiCheckElement modelTixi 1 "/a/c" sampleWorld).1 = .ok false) ∧
    (modelTixi.checkElement sampleWorld.doc 1 "a" = INVALID_XPATH ∧
      ∃ e : TixiError, (TixiCheckElement modelTixi 1 "a" sampleWorld).1
        = .error (.tixiError e) ∧ e.m_ret = INVALID_XPATH) :=
  ⟨⟨by decide, ((TixiCheck_three_way modelTixi 1 "/a/b" "x" attributeWorld SUCCESS).1
      (by decide)).1 rfl⟩,
   ⟨by decide, ((TixiCheck_three_way modelTixi 1 "/a/b" "x" sampleWorld
      ATTRIBUTE_NOT_FOUND).1 (by decide)).2.1 rfl⟩,
   ⟨by decide, ((TixiCheck_three_way modelTixi 2 "/a/b" "x" sampleWorld
      INVALID_HANDLE).1 (by decide)).2.2.2.1 (by decide) (by decide) (by decide)⟩,
   ⟨by decide, ((TixiCheck_three_way modelTixi 1 "/a/b" "" sampleWorld SUCCESS).2
      (by decide)).1 rfl⟩,
   ⟨by decide, ((TixiCheck_three_way modelTixi 1 "/a/c" "" sampleWorld
      ELEMENT_NOT_FOUND).2 (by decide)).2.1 rfl⟩,
   ⟨by decide, ((TixiCheck_three_way modelTixi 1 "a" "" sampleWorld
      INVALID_XPATH).2 (by decide)).2.2.2.1 (by decide) (by decide) (by decide)⟩⟩

/-! ## Getters -/

theorem TixiGetAttributeInternal_eq {σ T : Type} (h : TixiDocumentHandle)
    (xpath attr : String)
    (getFunc : TixiDocumentHandle → String → String → World σ → (ReturnCode × T) × World σ)
    (w : World σ) :
    TixiGetAttributeInternal h xpath attr getFunc w =
      (if (getFunc h xpath attr w).1.1 ≠ SUCCESS then
          .error (throwTixiError (getFunc h xpath attr w).1.1
            ("Error getting std::string attribute value\n" ++ "xpath: " ++ xpath ++ "\n"
              ++ "attribute: " ++ attr))
        else .ok (getFunc h xpath attr w).1.2,
       (getFunc h xpath attr w).2) := by
  unfold TixiGetAttributeInternal
  split_ifs <;> simp_all

theorem TixiGetElementInternal_eq {σ T : Type} (h : TixiDocumentHandle) (xpath : String)
    (getFunc : TixiDocumentHandle → String → World σ → (ReturnCode × T) × World σ)
    (w : World σ) :
    TixiGetElementInternal h xpath getFunc w =
      (if (getFunc h xpath w).1.1 ≠ SUCCESS then
          .error (throwTixiError (getFunc h xpath w).1.1
            ("Error getting element value\n" ++ "xpath: " ++ xpath))
        else .ok (getFunc h xpath w).1.2,
       (getFunc h xpath w).2) := by
  unfold TixiGetElementInternal
  split_ifs <;> simp_all

/-- C9: when the underlying boolean retrieval reports `SUCCESS` and leaves the integer `n` in
the scratch value, `TixiGetBoolAttribute` and `TixiGetBoolElement` return true if `n` is not
zero (negative or larger than one included) and false exactly when `n` is zero. -/
theorem TixiGetBool_nonzero {σ : Type} (L : Tixi σ) (h : TixiDocumentHandle)
    (xpath attr : String) (w : World σ) (n : Int) :
    (L.getBooleanAttribute w.doc h xpath attr = (SUCCESS, n) →
      (n ≠ 0 → (TixiGetBoolAttribute L h xpath attr w).1 = .ok true) ∧
      ((TixiGetBoolAttribute L h xpath attr w).1 = .ok false ↔ n = 0)) ∧
    (L.getBooleanElement w.doc h xpath = (SUCCESS, n) →
      (n ≠ 0 → (TixiGetBoolElement L h xpath w).1 = .ok true) ∧
      ((TixiGetBoolElement L h xpath w).1 = .ok false ↔ n = 0)) := by
  constructor
  · intro hr
    have e : (TixiGetBoolAttribute L h xpath attr w).1 = .ok (n != 0) := by
      simp [TixiGetBoolAttribute, mapResult, TixiGetAttributeInternal_eq,
        tixiGetBooleanAttribute, hr]
    rw [e]
    by_cases hn : n = 0 <;> simp [hn]
  · intro hr
    have e : (TixiGetBoolElement L h xpath w).1 = .ok (n != 0) := by
      simp [TixiGetBoolElement, mapResult, TixiGetElementInternal_eq,
        tixiGetBooleanElement, hr]
    rw [e]
    by_cases hn : n = 0 <;> simp [hn]

theorem addAttributeFunc_eq {σ : Type} (L : Tixi σ) (a : AttributeArgs)
    (h : TixiDocumentHandle) (xpath attr : String) (w : World σ) :
    addAttributeFunc L a h xpath attr w =
      ((a.apply L w.doc h xpath attr).1,
        w.step (a.call h xpath attr) (a.apply L w.doc h xpath attr).2) := by
  cases a <;> rfl

theorem addElementFunc_eq {σ : Type} (L : Tixi σ) (a : ElementArgs)
    (h : TixiDocumentHandle) (parentPath name : String) (w : World σ) :
    addElementFunc L a h parentPath name w =
      ((a.apply L w.doc h parentPath name).1,
        w.step (a.call h parentPath name) (a.apply L w.doc h parentPath name).2) := by
  cases a <;> rfl

theorem AttributeArgs.call_isAddAttribute (a : AttributeArgs) (h : TixiDocumentHandle)
    (xpath attr : String) : (a.call h xpath attr).isAddAttribute = true := by
  cases a <;> rfl

theorem ElementArgs.call_isAddElement (a : ElementArgs) (h : TixiDocumentHandle)
    (parentPath name : String) : (a.call h parentPath name).isAddElement = true := by
  cases a <;> rfl

theorem ElementArgs.call_not_remove (a : ElementArgs) (h : TixiDocumentHandle)
    (parentPath name : String) : (a.call h parentPath name).isRemoveElement = false := by
  cases a <;> rfl

/-! ## Attribute setters -/

theorem TixiSaveAttributeInternal_fail {σ : Type} (L : Tixi σ) (h : TixiDocumentHandle)
    (xpath attr : String)
    (saveFunc : TixiDocumentHandle → String → String → World σ → ReturnCode × World σ)
    (w : World σ) (hr : L.checkElement w.doc h xpath ≠ SUCCESS) :
    TixiSaveAttributeInternal L h xpath attr saveFunc w =
      (.error (throwTixiError (L.checkElement w.doc h xpath)
        ("Error setting attribute, element does not exist\n" ++ "xpath: " ++ xpath)),
       w.log (.checkElement h xpath)) := by
  simp [TixiSaveAttributeInternal, tixiCheckElement, hr]

theorem TixiSaveAttributeInternal_pass {σ : Type} (L : Tixi σ) (h : TixiDocumentHandle)
    (xpath attr : String) (a : AttributeArgs) (w : World σ)
    (hr : L.checkElement w.doc h xpath = SUCCESS) :
    TixiSaveAttributeInternal L h xpath attr (addAttributeFunc L a) w =
      (if (a.apply L w.doc h xpath attr).1 ≠ SUCCESS then
          .error (throwTixiError (a.apply L w.doc h xpath attr).1
            ("Error setting attribute\n" ++ "xpath: " ++ xpath ++ "\n"
              ++ "attribute: " ++ attr ++ "\n"))
        else .ok (),
       { doc := (a.apply L w.doc h xpath attr).2
         calls := w.calls ++ [.checkElement h xpath, a.call h xpath attr] }) := by
  simp only [TixiSaveAttributeInternal, tixiCheckElement, hr, addAttributeFunc_eq]
  split_ifs <;> simp_all [World.log, World.step]

/-- C7: if the underlying element check reports a status `r` other than `SUCCESS`, then
`TixiSaveAttribute`, for a value of any kind, raises the error built from `r` (a `TixiError`
carrying `r`), the only underlying call it makes is that check, and the document is left as
it was; an add-attribute call occurs among its calls only if the element check reported
`SUCCESS`, and it then comes right after the check. -/
theorem TixiSaveAttribute_checks_first {σ : Type} (L : Tixi σ) (h : TixiDocumentHandle)
    (xpath attr : String) (a : AttributeArgs) (w : World σ) (r : ReturnCode) :
    (L.checkElement w.doc h xpath = r → r ≠ SUCCESS →
      (TixiSaveAttributeInternal L h xpath attr (addAttributeFunc L a) w).1
        = .error (throwTixiError r
            ("Error setting attribute, element does not exist\n" ++ "xpath: " ++ xpath)) ∧
      (isDefinedCode r → ∃ e : TixiError,
        (TixiSaveAttributeInternal L h xpath attr (addAttributeFunc L a) w).1
          = .error (.tixiError e) ∧ e.m_ret = r) ∧
      (TixiSaveAttributeInternal L h xpath attr (addAttributeFunc L a) w).2.calls
        = w.calls ++ [.checkElement h xpath] ∧
      (∀ c ∈ (TixiSaveAttributeInternal L h xpath attr (addAttributeFunc L a) w).2.calls.drop
          w.calls.length, c.isAddAttribute = false) ∧
      (TixiSaveAttributeInternal L h xpath attr (addAttributeFunc L a) w).2.doc = w.doc) ∧
    ((∃ c ∈ ((TixiSaveAttributeInternal L h xpath attr (addAttributeFunc L a) w).2.calls.drop
        w.calls.length), c.isAddAttribute = true) →
      L.checkElement w.doc h xpath = SUCCESS ∧
      (TixiSaveAttributeInternal L h xpath attr (addAttributeFunc L a) w).2.calls
        = w.calls ++ [.checkElement h xpath, a.call h xpath attr]) ∧
    (∀ v : String, TixiSaveAttribute_text L h xpath attr v w
      = TixiSaveAttributeInternal L h xpath attr (addAttributeFunc L (.text v)) w) ∧
    (∀ v : Double, TixiSaveAttribute_double L h xpath attr v w
      = TixiSaveAttributeInternal L h xpath attr (addAttributeFunc L (.double v none)) w) ∧
    (∀ v : Bool, TixiSaveAttribute_bool L h xpath attr v w
      = TixiSaveAttributeInternal L h xpath attr
          (addAttributeFunc L (.integer (if v then 1 else 0) none)) w) ∧
    (∀ v : Int, TixiSaveAttribute_int L h xpath attr v w
      = TixiSaveAttributeInternal L h xpath attr (addAttributeFunc L (.integer v none)) w) := by
  refine ⟨?_, ?_, fun _ => rfl, fun _ => rfl, fun _ => rfl, fun _ => rfl⟩
  · intro hr hne
    have hne' : L.checkElement w.doc h xpath ≠ SUCCESS := by rw [hr]; exact hne
    rw [TixiSaveAttributeInternal_fail L h xpath attr _ w hne', hr]
    refine ⟨rfl, ?_, rfl, by simp [World.log, Call.isAddAttribute], rfl⟩
    intro hd
    obtain ⟨name, _, e⟩ := throwTixiError_defined r
      ("Error setting attribute, element does not exist\n" ++ "xpath: " ++ xpath) hd
    rw [e]
    exact ⟨_, rfl, rfl⟩
  · rintro ⟨c, hc, hadd⟩
    by_cases hr : L.checkElement w.doc h xpath = SUCCESS
    · refine ⟨hr, ?_⟩
      rw [TixiSaveAttributeInternal_pass L h xpath attr a w hr]
    · exfalso
      rw [TixiSaveAttributeInternal_fail L h xpath attr _ w hr] at hc
      simp [World.log] at hc
      subst hc
      simp [Call.isAddAttribute] at hadd

/-! ## Element setters -/

theorem TixiSaveElementInternal_parent_fail {σ : Type} (L : Tixi σ)
    (h : TixiDocumentHandle) (xpath : String)
    (saveFunc : TixiDocumentHandle → String → String → World σ → ReturnCode × World σ)
    (w : World σ) (hr : L.checkElement w.doc h (splitXPath xpath).parentXPath ≠ SUCCESS) :
    TixiSaveElementInternal L h xpath saveFunc w =
      (.error (throwTixiError (L.checkElement w.doc h (splitXPath xpath).parentXPath)
        ("Error saving element, parent element does not exist\n" ++ "parent xpath: "
          ++ (splitXPath xpath).parentXPath)),
       w.log (.checkElement h (splitXPath xpath).parentXPath)) := by
  simp [TixiSaveElementInternal, tixiCheckElement, hr]

theorem TixiSaveElementInternal_check_fail {σ : Type} (L : Tixi σ)
    (h : TixiDocumentHandle) (xpath : String)
    (saveFunc : TixiDocumentHandle → String → String → World σ → ReturnCode × World σ)
    (w : World σ) (hp : L.checkElement w.doc h (splitXPath xpath).parentXPath = SUCCESS)
    (h1 : L.checkElement w.doc h xpath ≠ SUCCESS)
    (h2 : L.checkElement w.doc h xpath ≠ ELEMENT_NOT_FOUND) :
    TixiSaveElementInternal L h xpath saveFunc w =
      (.error (throwTixiError (L.checkElement w.doc h xpath)
        ("Checking element existence failed\n" ++ "xpath: " ++ xpath)),
       { doc := w.doc
         calls := w.calls ++ [.checkElement h (splitXPath xpath).parentXPath,
           .checkElement h xpath] }) := by
  simp [TixiSaveElementInternal, tixiCheckElement, hp, TixiCheckElement_eq, World.log, h1, h2]

theorem TixiSaveElementInternal_absent {σ : Type} (L : Tixi σ)
    (h : TixiDocumentHandle) (xpath : String) (a : ElementArgs)
    (w : World σ) (hp : L.checkElement w.doc h (splitXPath xpath).parentXPath = SUCCESS)
    (hx : L.checkElement w.doc h xpath = ELEMENT_NOT_FOUND) :
    TixiSaveElementInternal L h xpath (addElementFunc L a) w =
      (if (a.apply L w.doc h (splitXPath xpath).parentXPath (splitXPath xpath).element).1
            ≠ SUCCESS then
          .error (throwTixiError
            (a.apply L w.doc h (splitXPath xpath).parentXPath (splitXPath xpath).element).1
            ("Error saving element\n" ++ "xpath: " ++ xpath))
        else .ok (),
       { doc := (a.apply L w.doc h (splitXPath xpath).parentXPath
           (splitXPath xpath).element).2
         calls := w.calls ++ [.checkElement h (splitXPath xpath).parentXPath,
           .checkElement h xpath,
           a.call h (splitXPath xpath).parentXPath (splitXPath xpath).element] }) := by
  have hne : (ELEMENT_NOT_FOUND : ReturnCode) ≠ SUCCESS := by decide
  simp only [TixiSaveElementInternal, tixiCheckElement, hp, TixiCheckElement_eq, World.log, hx,
    addElementFunc_eq, World.step]
  split_ifs <;> simp_all

theorem TixiSaveElementInternal_present {σ : Type} (L : Tixi σ)
    (h : TixiDocumentHandle) (xpath : String) (a : ElementArgs)
    (w : World σ) (hp : L.checkElement w.doc h (splitXPath xpath).parentXPath = SUCCESS)
    (hx : L.checkElement w.doc h xpath = SUCCESS) :
    TixiSaveElementInternal L h xpath (addElementFunc L a) w =
      (if (L.removeElement w.doc h xpath).1 ≠ SUCCESS then
        (.error (throwTixiError (L.removeElement w.doc h xpath).1
          ("Error saving element, failed to remove previous element\n" ++ "xpath: "
            ++ xpath)),
         { doc := (L.removeElement w.doc h xpath).2
           calls := w.calls ++ [.checkElement h (splitXPath xpath).parentXPath,
             .checkElement h xpath, .removeElement h xpath] })
      else
        (if (a.apply L (L.removeElement w.doc h xpath).2 h (splitXPath xpath).parentXPath
              (splitXPath xpath).element).1 ≠ SUCCESS then
            .error (throwTixiError
              (a.apply L (L.removeElement w.doc h xpath).2 h (splitXPath xpath).parentXPath
                (splitXPath xpath).element).1
              ("Error saving element\n" ++ "xpath: " ++ xpath))
          else .ok (),
         { doc := (a.apply L (L.removeElement w.doc h xpath).2 h
             (splitXPath xpath).parentXPath (splitXPath xpath).element).2
           calls := w.calls ++ [.checkElement h (splitXPath xpath).parentXPath,
             .checkElement h xpath, .removeElement h xpath,
             a.call h (splitXPath xpath).parentXPath (splitXPath xpath).element] })) := by
  simp only [TixiSaveElementInternal, tixiCheckElement, hp, TixiCheckElement_eq, World.log, hx,
    addElementFunc_eq, World.step, tixiRemoveElement]
  split_ifs <;> simp_all

/-! ## The document model -/

theorem Document.checkElement_eq_success (d : Document) (h : TixiDocumentHandle) (p : String) :
    d.checkElement h p = SUCCESS ↔
      h = d.handle ∧ isAbsolute p = true ∧ ∃ n, d.elementsAt p = [n] := by
  unfold Document.checkElement
  by_cases hh : h = d.handle
  · by_cases ha : isAbsolute p = true
    · simp only [hh, ha, ne_eq, not_true_eq_false, if_false, true_and]
      split <;> simp_all [SUCCESS, ELEMENT_NOT_FOUND, ELEMENT_PATH_NOT_UNIQUE]
    · simp [hh, ha, INVALID_XPATH, SUCCESS]
  · simp [hh, INVALID_HANDLE, SUCCESS]

theorem isAbsolute_parent_mem (xpath : String)
    (h : isAbsolute (splitXPath xpath).parentXPath = true) : '/' ∈ xpath.data := by
  by_contra hn
  rw [splitXPath_eq_of_none xpath ((find_last_of_eq_none _ _).mpr hn)] at h
  simp [isAbsolute] at h

theorem parent_ne (xpath : String) (hm : '/' ∈ xpath.data) :
    (splitXPath xpath).parentXPath ≠ xpath := by
  intro he
  have hj := splitXPath_join xpath hm
  have hl := congrArg String.length hj
  rw [he] at hl
  simp at hl
  have : "/".length = 1 := rfl
  omega

theorem parent_not_below (xpath : String) :
    isBelow xpath (splitXPath xpath).parentXPath = false := by
  have hlen : (splitXPath xpath).parentXPath.data.length
      + (splitXPath xpath).element.data.length ≤ xpath.data.length := splitXPath_length xpath
  by_contra hb
  simp only [Bool.not_eq_false, isBelow, decide_eq_true_eq] at hb
  have hl := congrArg List.length hb
  simp only [List.length_take, List.length_append, List.length_singleton] at hl
  omega

theorem Document.elementsAt_remove_self (d : Document) (h : TixiDocumentHandle)
    (xpath : String) (hx : d.checkElement h xpath = SUCCESS) :
    (d.removeElement h xpath).1 = SUCCESS ∧
    (d.removeElement h xpath).2.handle = d.handle ∧
    (d.removeElement h xpath).2.elementsAt xpath = [] := by
  simp only [Document.removeElement, hx, ne_eq, not_true_eq_false, if_false, true_and,
    Document.elementsAt, List.filter_filter]
  rw [List.filter_eq_nil_iff]
  intro n _
  by_cases hn : n.path = xpath <;> simp [hn]

theorem Document.elementsAt_remove_other (d : Document) (h : TixiDocumentHandle)
    (xpath p : String) (hx : d.checkElement h xpath = SUCCESS) (hne : p ≠ xpath)
    (hb : isBelow xpath p = false) :
    (d.removeElement h xpath).2.elementsAt p = d.elementsAt p := by
  simp only [Document.removeElement, hx, ne_eq, not_true_eq_false, if_false,
    Document.elementsAt, List.filter_filter]
  apply List.filter_congr
  intro n _
  by_cases hn : n.path = p
  · subst hn
    simp [hne, hb]
  · simp [hn]

theorem Document.checkElement_remove_other (d : Document) (h : TixiDocumentHandle)
    (xpath p : String) (hx : d.checkElement h xpath = SUCCESS) (hne : p ≠ xpath)
    (hb : isBelow xpath p = false) (hp : d.checkElement h p = SUCCESS) :
    (d.removeElement h xpath).2.checkElement h p = SUCCESS := by
  rw [Document.checkElement_eq_success] at hp ⊢
  obtain ⟨h1, h2, n, h3⟩ := hp
  refine ⟨?_, h2, n, ?_⟩
  · rw [(Document.elementsAt_remove_self d h xpath hx).2.1]; exact h1
  · rw [Document.elementsAt_remove_other d h xpath p hx hne hb]; exact h3

theorem Document.elementsAt_add (d : Document) (h : TixiDocumentHandle)
    (parent name : String) (v : Value) (hp : d.checkElement h parent = SUCCESS)
    (p : String) :
    (d.addElement h parent name v).1 = SUCCESS ∧
    (d.addElement h parent name v).2.elementsAt p =
      d.elementsAt p ++ (if parent ++ "/" ++ name = p then [⟨parent ++ "/" ++ name, v, []⟩]
        else []) := by
  simp only [Document.addElement, hp, ne_eq, not_true_eq_false, if_false, true_and,
    Document.elementsAt, List.filter_append]
  by_cases he : parent ++ "/" ++ name = p <;> simp [he, List.filter_cons]

theorem ElementArgs.apply_model (a : ElementArgs) (d : Document) (h : TixiDocumentHandle)
    (parent name : String) :
    a.apply modelTixi d h parent name = d.addElement h parent name a.value := by
  cases a <;> rfl

/-- On the document model, saving over an element that exists (under a parent that exists)
succeeds with the four calls in order, and leaves exactly one element at the path, with the
content written. -/
theorem TixiSaveElementInternal_model_replace (d : Document) (cs : List Call)
    (h : TixiDocumentHandle) (xpath : String) (a : ElementArgs)
    (hp : d.checkElement h (splitXPath xpath).parentXPath = SUCCESS)
    (hx : d.checkElement h xpath = SUCCESS) :
    (TixiSaveElementInternal modelTixi h xpath (addElementFunc modelTixi a) ⟨d, cs⟩).1
      = .ok () ∧
    (TixiSaveElementInternal modelTixi h xpath (addElementFunc modelTixi a) ⟨d, cs⟩).2.calls
      = cs ++ [.checkElement h (splitXPath xpath).parentXPath, .checkElement h xpath,
          .removeElement h xpath,
          a.call h (splitXPath xpath).parentXPath (splitXPath xpath).element] ∧
    (TixiSaveElementInternal modelTixi h xpath (addElementFunc modelTixi a)
        ⟨d, cs⟩).2.doc.elementsAt xpath = [⟨xpath, a.value, []⟩] := by
  have hm : '/' ∈ xpath.data :=
    isAbsolute_parent_mem xpath ((Document.checkElement_eq_success _ _ _).mp hp).2.1
  have hj := splitXPath_join xpath hm
  obtain ⟨r1, _, r3⟩ := Document.elementsAt_remove_self d h xpath hx
  have hp' := Document.checkElement_remove_other d h xpath _ hx (parent_ne xpath hm)
    (parent_not_below xpath) hp
  obtain ⟨a1, a2⟩ := Document.elementsAt_add (d.removeElement h xpath).2 h
    (splitXPath xpath).parentXPath (splitXPath xpath).element a.value hp' xpath
  rw [TixiSaveElementInternal_present modelTixi h xpath a ⟨d, cs⟩ hp hx]
  have e1 : (modelTixi.removeElement d h xpath) = d.removeElement h xpath := rfl
  simp only [e1, r1, ne_eq, not_true_eq_false, if_false, ElementArgs.apply_model, a1]
  refine ⟨trivial, trivial, ?_⟩
  rw [a2, r3, hj]
  simp

theorem TixiSaveElementInternal_calls {σ : Type} (L : Tixi σ) (h : TixiDocumentHandle)
    (xpath : String) (a : ElementArgs) (w : World σ) :
    ∃ l, (TixiSaveElementInternal L h xpath (addElementFunc L a) w).2.calls = w.calls ++ l ∧
      (l = [.checkElement h (splitXPath xpath).parentXPath] ∨
       l = [.checkElement h (splitXPath xpath).parentXPath, .checkElement h xpath] ∨
       l = [.checkElement h (splitXPath xpath).parentXPath, .checkElement h xpath,
          .removeElement h xpath] ∨
       l = [.checkElement h (splitXPath xpath).parentXPath, .checkElement h xpath,
          a.call h (splitXPath xpath).parentXPath (splitXPath xpath).element] ∨
       l = [.checkElement h (splitXPath xpath).parentXPath, .checkElement h xpath,
          .removeElement h xpath,
          a.call h (splitXPath xpath).parentXPath (splitXPath xpath).element]) := by
  by_cases hp : L.checkElement w.doc h (splitXPath xpath).parentXPath = SUCCESS
  · by_cases hx : L.checkElement w.doc h xpath = SUCCESS
    · rw [TixiSaveElementInternal_present L h xpath a w hp hx]
      by_cases hr : (L.removeElement w.doc h xpath).1 = SUCCESS
      · rw [if_neg (not_not.mpr hr)]
        exact ⟨_, rfl, by simp⟩
      · rw [if_pos hr]
        exact ⟨_, rfl, by simp⟩
    · by_cases hn : L.checkElement w.doc h xpath = ELEMENT_NOT_FOUND
      · rw [TixiSaveElementInternal_absent L h xpath a w hp hn]
        exact ⟨_, rfl, by simp⟩
      · rw [TixiSaveElementInternal_check_fail L h xpath _ w hp hx hn]
        exact ⟨_, rfl, by simp⟩
  · rw [TixiSaveElementInternal_parent_fail L h xpath _ w hp]
    exact ⟨_, rfl, by simp⟩

/-- C10: `splitXPath` loses nothing. For a path `s` with a `/`, parent, `/` and leaf put
together give `s` back and the leaf has no `/`; for a path without `/` the leaf is `s` and
the parent is empty. In every case the leaf has no `/` and the two lengths add up to at most
the length of `s`. Every add call that the element setter makes on `s` carries exactly this
parent and leaf, while its check and remove calls carry `s` itself (or the parent). -/
theorem splitXPath_lossless (s : String) :
    ('/' ∈ s.data →
      (splitXPath s).parentXPath ++ "/" ++ (splitXPath s).element = s ∧
      '/' ∉ (splitXPath s).element.data) ∧
    ('/' ∉ s.data → (splitXPath s).element = s ∧ (splitXPath s).parentXPath = "") ∧
    '/' ∉ (splitXPath s).element.data ∧
    (splitXPath s).parentXPath.length + (splitXPath s).element.length ≤ s.length ∧
    (∀ (σ : Type) (L : Tixi σ) (h : TixiDocumentHandle) (a : ElementArgs) (w : World σ)
      (c : Call),
      c ∈ (TixiSaveElementInternal L h s (addElementFunc L a) w).2.calls.drop w.calls.length →
        (c.isAddElement = true →
          c = a.call h (splitXPath s).parentXPath (splitXPath s).element ∧
          ((splitXPath s).parentXPath ++ "/" ++ (splitXPath s).element = s ∨
            ((splitXPath s).parentXPath = "" ∧ (splitXPath s).element = s))) ∧
        (c.isRemoveElement = true → c = .removeElement h s) ∧
        (c.isAddElement = false → c.isRemoveElement = false →
          c = .checkElement h (splitXPath s).parentXPath ∨ c = .checkElement h s)) := by
  have hnone : '/' ∉ s.data → (splitXPath s).element = s ∧ (splitXPath s).parentXPath = "" := by
    intro hn
    rw [splitXPath_eq_of_none s ((find_last_of_eq_none _ _).mpr hn)]
    exact ⟨rfl, rfl⟩
  have hloc : (splitXPath s).parentXPath ++ "/" ++ (splitXPath s).element = s ∨
      ((splitXPath s).parentXPath = "" ∧ (splitXPath s).element = s) := by
    by_cases hm : '/' ∈ s.data
    · exact Or.inl (splitXPath_join s hm)
    · exact Or.inr ⟨(hnone hm).2, (hnone hm).1⟩
  refine ⟨fun hm => ⟨splitXPath_join s hm, splitXPath_element_no_sep s⟩, hnone,
    splitXPath_element_no_sep s, splitXPath_length s, ?_⟩
  intro σ L h a w c hc
  obtain ⟨l, hl, hcases⟩ := TixiSaveElementInternal_calls L h s a w
  rw [hl, List.drop_left] at hc
  have hadd := ElementArgs.call_isAddElement a h (splitXPath s).parentXPath
    (splitXPath s).element
  have hrem := ElementArgs.call_not_remove a h (splitXPath s).parentXPath
    (splitXPath s).element
  have key : c = .checkElement h (splitXPath s).parentXPath ∨ c = .checkElement h s ∨
      c = .removeElement h s ∨
      c = a.call h (splitXPath s).parentXPath (splitXPath s).element := by
    rcases hcases with e | e | e | e | e <;> subst e <;> simp at hc <;> tauto
  rcases key with e | e | e | e <;> subst e <;>
    simp_all [Call.isAddElement, Call.isRemoveElement]

/-- Create-or-replace in the forwarder `TixiSaveElementInternal`, for every library and every
forwarded add call. When an element exists at the path (and its parent exists) and all
underlying calls succeed, the calls are, in this order: check the parent, check the full
path, remove the element at the full path, add with the parent path, the leaf name and the
forwarded arguments; over the document model the document then holds exactly one element at
that path, carrying what was forwarded. When no element exists at the path, no remove call
is made and exactly one add call. When the remove call reports a status other than
`SUCCESS`, the error carrying that status is raised and no add call is made. The text,
double and integer overloads forward the value they were given. -/
theorem TixiSaveElementInternal_create_or_replace {σ : Type} (L : Tixi σ) (h : TixiDocumentHandle)
    (xpath : String) (a : ElementArgs) (w : World σ) :
    (L.checkElement w.doc h (splitXPath xpath).parentXPath = SUCCESS →
      L.checkElement w.doc h xpath = SUCCESS →
      (L.removeElement w.doc h xpath).1 = SUCCESS →
      (a.apply L (L.removeElement w.doc h xpath).2 h (splitXPath xpath).parentXPath
        (splitXPath xpath).element).1 = SUCCESS →
      (TixiSaveElementInternal L h xpath (addElementFunc L a) w).1 = .ok () ∧
      (TixiSaveElementInternal L h xpath (addElementFunc L a) w).2.calls
        = w.calls ++ [.checkElement h (splitXPath xpath).parentXPath, .checkElement h xpath,
            .removeElement h xpath,
            a.call h (splitXPath xpath).parentXPath (splitXPath xpath).element] ∧
      (TixiSaveElementInternal L h xpath (addElementFunc L a) w).2.doc
        = (a.apply L (L.removeElement w.doc h xpath).2 h (splitXPath xpath).parentXPath
            (splitXPath xpath).element).2) ∧
    (L.checkElement w.doc h (splitXPath xpath).parentXPath = SUCCESS →
      L.checkElement w.doc h xpath = ELEMENT_NOT_FOUND →
      (TixiSaveElementInternal L h xpath (addElementFunc L a) w).2.calls
        = w.calls ++ [.checkElement h (splitXPath xpath).parentXPath, .checkElement h xpath,
            a.call h (splitXPath xpath).parentXPath (splitXPath xpath).element] ∧
      (∀ c ∈ (TixiSaveElementInternal L h xpath (addElementFunc L a) w).2.calls.drop
          w.calls.length, c.isRemoveElement = false) ∧
      (((TixiSaveElementInternal L h xpath (addElementFunc L a) w).2.calls.drop
          w.calls.length).filter Call.isAddElement).length = 1 ∧
      (TixiSaveElementInternal L h xpath (addElementFunc L a) w).2.doc
        = (a.apply L w.doc h (splitXPath xpath).parentXPath (splitXPath xpath).element).2) ∧
    (∀ r : ReturnCode,
      L.checkElement w.doc h (splitXPath xpath).parentXPath = SUCCESS →
      L.checkElement w.doc h xpath = SUCCESS →
      (L.removeElement w.doc h xpath).1 = r → r ≠ SUCCESS →
      (TixiSaveElementInternal L h xpath (addElementFunc L a) w).1
        = .error (throwTixiError r
            ("Error saving element, failed to remove previous element\n" ++ "xpath: "
              ++ xpath)) ∧
      (isDefinedCode r → ∃ e : TixiError,
        (TixiSaveElementInternal L h xpath (addElementFunc L a) w).1
          = .error (.tixiError e) ∧ e.m_ret = r) ∧
      (TixiSaveElementInternal L h xpath (addElementFunc L a) w).2.calls
        = w.calls ++ [.checkElement h (splitXPath xpath).parentXPath, .checkElement h xpath,
            .removeElement h xpath] ∧
      (∀ c ∈ (TixiSaveElementInternal L h xpath (addElementFunc L a) w).2.calls.drop
          w.calls.length, c.isAddElement = false)) ∧
    (∀ (d : Document) (cs : List Call),
      d.checkElement h (splitXPath xpath).parentXPath = SUCCESS →
      d.checkElement h xpath = SUCCESS →
      (TixiSaveElementInternal modelTixi h xpath (addElementFunc modelTixi a) ⟨d, cs⟩).1
        = .ok () ∧
      (TixiSaveElementInternal modelTixi h xpath (addElementFunc modelTixi a) ⟨d, cs⟩).2.calls
        = cs ++ [.checkElement h (splitXPath xpath).parentXPath, .checkElement h xpath,
            .removeElement h xpath,
            a.call h (splitXPath xpath).parentXPath (splitXPath xpath).element] ∧
      (TixiSaveElementInternal modelTixi h xpath (addElementFunc modelTixi a)
          ⟨d, cs⟩).2.doc.elementsAt xpath = [⟨xpath, a.value, []⟩]) ∧
    (∀ v : String, TixiSaveElement_text L h xpath v w
      = TixiSaveElementInternal L h xpath (addElementFunc L (.text v)) w) ∧
    (∀ v : Double, TixiSaveElement_double L h xpath v w
      = TixiSaveElementInternal L h xpath (addElementFunc L (.double v none)) w) ∧
    (∀ v : Int, TixiSaveElement_int L h xpath v w
      = TixiSaveElementInternal L h xpath (addElementFunc L (.integer v none)) w) := by
  have hadd := ElementArgs.call_isAddElement a h (splitXPath xpath).parentXPath
    (splitXPath xpath).element
  have hrem := ElementArgs.call_not_remove a h (splitXPath xpath).parentXPath
    (splitXPath xpath).element
  refine ⟨?_, ?_, ?_, ?_, fun _ => rfl, fun _ => rfl, fun _ => rfl⟩
  · intro hp hx hr ha
    rw [TixiSaveElementInternal_present L h xpath a w hp hx, if_neg (not_not.mpr hr),
      if_neg (not_not.mpr ha)]
    exact ⟨rfl, rfl, rfl⟩
  · intro hp hx
    rw [TixiSaveElementInternal_absent L h xpath a w hp hx]
    refine ⟨rfl, ?_, ?_, rfl⟩
    · intro c hc
      simp only [List.drop_left, List.mem_cons, List.mem_singleton, List.not_mem_nil,
        or_false] at hc
      rcases hc with e | e | e <;> subst e <;> first | exact hrem | rfl
    · have e1 : ∀ p, Call.isAddElement (.checkElement h p) = false := fun _ => rfl
      simp only [List.drop_left, List.filter_cons, e1, hadd]
      simp
  · intro r hp hx hr hne
    have hne' : (L.removeElement w.doc h xpath).1 ≠ SUCCESS := by rw [hr]; exact hne
    rw [TixiSaveElementInternal_present L h xpath a w hp hx, if_pos hne', hr]
    refine ⟨rfl, ?_, rfl, ?_⟩
    · intro hd
      obtain ⟨name, _, e⟩ := throwTixiError_defined r
        ("Error saving element, failed to remove previous element\n" ++ "xpath: "
          ++ xpath) hd
      rw [e]
      exact ⟨_, rfl, rfl⟩
    · intro c hc
      simp only [List.drop_left, List.mem_cons, List.mem_singleton, List.not_mem_nil,
        or_false] at hc
      rcases hc with e | e | e <;> subst e <;> simp [Call.isAddElement]
  · intro d cs hp hx
    exact TixiSaveElementInternal_model_replace d cs h xpath a hp hx

/-- An example on the sample document: saving the integer 7 at `/a/b`, which exists,
replaces it; saving at `/a/c`, which does not exist, adds it without a removal; and on the
saved document the refused removal is raised and nothing is added. -/
theorem TixiSaveElementInternal_create_or_replace_example :
    ((TixiSaveElement_int modelTixi 1 "/a/b" 7 sampleWorld).1 = .ok () ∧
      (TixiSaveElement_int modelTixi 1 "/a/b" 7 sampleWorld).2.calls
        = [.checkElement 1 "/a", .checkElement 1 "/a/b", .removeElement 1 "/a/b",
            .addIntegerElement 1 "/a" "b" 7 none] ∧
      (TixiSaveElement_int modelTixi 1 "/a/b" 7 sampleWorld).2.doc.elementsAt "/a/b"
        = [⟨"/a/b", .integer 7, []⟩]) ∧
    ((TixiSaveElement_int modelTixi 1 "/a/c" 7 sampleWorld).2.calls
        = [.checkElement 1 "/a", .checkElement 1 "/a/c",
            .addIntegerElement 1 "/a" "c" 7 none]) ∧
    (∃ e : TixiError, (TixiSaveElement_int savedTixi 1 "/a/b" 7 sampleWorld).1
        = .error (.tixiError e) ∧ e.m_ret = ALREADY_SAVED) ∧
    ((TixiSaveElement_int savedTixi 1 "/a/b" 7 sampleWorld).2.calls
        = [.checkElement 1 "/a", .checkElement 1 "/a/b", .removeElement 1 "/a/b"]) :=
  ⟨⟨((TixiSaveElementInternal_create_or_replace modelTixi 1 "/a/b" (.integer 7 none)
        sampleWorld).1 (by decide) (by decide) (by decide) (by decide)).1,
    ((TixiSaveElementInternal_create_or_replace modelTixi 1 "/a/b" (.integer 7 none)
        sampleWorld).1 (by decide) (by decide) (by decide) (by decide)).2.1,
    ((TixiSaveElementInternal_create_or_replace modelTixi 1 "/a/b" (.integer 7 none)
        sampleWorld).2.2.2.1 sampleDocument [] (by decide) (by decide)).2.2⟩,
   ((TixiSaveElementInternal_create_or_replace modelTixi 1 "/a/c" (.integer 7 none)
        sampleWorld).2.1 (by decide) (by decide)).1,
   ((TixiSaveElementInternal_create_or_replace savedTixi 1 "/a/b" (.integer 7 none)
        sampleWorld).2.2.1 ALREADY_SAVED (by decide) (by decide) (by decide)
        (by decide)).2.1 (by decide),
   ((TixiSaveElementInternal_create_or_replace savedTixi 1 "/a/b" (.integer 7 none)
        sampleWorld).2.2.1 ALREADY_SAVED (by decide) (by decide) (by decide)
        (by decide)).2.2.1⟩

/-- The witness of C7 on the sample document: `/a/c` does not exist, so saving an attribute
on it raises `ELEMENT_NOT_FOUND` after the single check call and leaves the document as it
was; `/a/b` exists, and there the add call follows the check. -/
theorem TixiSaveAttribute_checks_first_witness :
    (modelTixi.checkElement sampleWorld.doc 1 "/a/c" = ELEMENT_NOT_FOUND ∧
      ELEMENT_NOT_FOUND ≠ SUCCESS ∧
      (∃ e : TixiError, (TixiSaveAttribute_int modelTixi 1 "/a/c" "x" 42 sampleWorld).1
        = .error (.tixiError e) ∧ e.m_ret = ELEMENT_NOT_FOUND) ∧
      (TixiSaveAttribute_int modelTixi 1 "/a/c" "x" 42 sampleWorld).2.calls
        = [.checkElement 1 "/a/c"] ∧
      (TixiSaveAttribute_int modelTixi 1 "/a/c" "x" 42 sampleWorld).2.doc = sampleDocument) ∧
    (modelTixi.checkElement sampleWorld.doc 1 "/a/b" = SUCCESS ∧
      (TixiSaveAttribute_int modelTixi 1 "/a/b" "x" 42 sampleWorld).2.calls
        = [.checkElement 1 "/a/b", .addIntegerAttribute 1 "/a/b" "x" 42 none]) :=
  ⟨⟨by decide, by decide,
    ((TixiSaveAttribute_checks_first modelTixi 1 "/a/c" "x" (.integer 42 none) sampleWorld
      ELEMENT_NOT_FOUND).1 (by decide) (by decide)).2.1 (by decide),
    ((TixiSaveAttribute_checks_first modelTixi 1 "/a/c" "x" (.integer 42 none) sampleWorld
      ELEMENT_NOT_FOUND).1 (by decide) (by decide)).2.2.1,
    ((TixiSaveAttribute_checks_first modelTixi 1 "/a/c" "x" (.integer 42 none) sampleWorld
      ELEMENT_NOT_FOUND).1 (by decide) (by decide)).2.2.2.2⟩,
   (TixiSaveAttribute_checks_first modelTixi 1 "/a/b" "x" (.integer 42 none) sampleWorld
      SUCCESS).2.1 ⟨.addIntegerAttribute 1 "/a/b" "x" 42 none, by decide, rfl⟩⟩

/-- The witness of C9: a boolean retrieval that leaves -3 gives true, one that leaves 0 gives
false, for the attribute getter and for the element getter. -/
theorem TixiGetBool_nonzero_witness :
    ((booleanTixi (-3)).getBooleanAttribute sampleWorld.doc 1 "/a/b" "x" = (SUCCESS, -3) ∧
      (-3 : Int) ≠ 0 ∧
      (TixiGetBoolAttribute (booleanTixi (-3)) 1 "/a/b" "x" sampleWorld).1 = .ok true) ∧
    ((booleanTixi 0).getBooleanAttribute sampleWorld.doc 1 "/a/b" "x" = (SUCCESS, 0) ∧
      (TixiGetBoolAttribute (booleanTixi 0) 1 "/a/b" "x" sampleWorld).1 = .ok false) ∧
    ((booleanTixi (-3)).getBooleanElement sampleWorld.doc 1 "/a/b" = (SUCCESS, -3) ∧
      (TixiGetBoolElement (booleanTixi (-3)) 1 "/a/b" sampleWorld).1 = .ok true) ∧
    ((booleanTixi 0).getBooleanElement sampleWorld.doc 1 "/a/b" = (SUCCESS, 0) ∧
      (TixiGetBoolElement (booleanTixi 0) 1 "/a/b" sampleWorld).1 = .ok false) :=
  ⟨⟨rfl, by decide,
    ((TixiGetBool_nonzero (booleanTixi (-3)) 1 "/a/b" "x" sampleWorld (-3)).1 rfl).1
      (by decide)⟩,
   ⟨rfl, ((TixiGetBool_nonzero (booleanTixi 0) 1 "/a/b" "x" sampleWorld 0).1 rfl).2.mpr rfl⟩,
   ⟨rfl, ((TixiGetBool_nonzero (booleanTixi (-3)) 1 "/a/b" "x" sampleWorld (-3)).2 rfl).1
      (by decide)⟩,
   ⟨rfl, ((TixiGetBool_nonzero (booleanTixi 0) 1 "/a/b" "x" sampleWorld 0).2 rfl).2.mpr rfl⟩⟩

/-- The witness of C10: `/a/b` has a separator and `leaf` has none; the add call of a save
at `/a/b` on the sample document carries `/a` and `b`. -/
theorem splitXPath_lossless_witness :
    ('/' ∈ "/a/b".data ∧
      (splitXPath "/a/b").parentXPath ++ "/" ++ (splitXPath "/a/b").element = "/a/b" ∧
      '/' ∉ (splitXPath "/a/b").element.data) ∧
    ('/' ∉ "leaf".data ∧
      (splitXPath "leaf").element = "leaf" ∧ (splitXPath "leaf").parentXPath = "") ∧
    (Call.addIntegerElement 1 "/a" "b" 7 none ∈
        (TixiSaveElementInternal modelTixi 1 "/a/b"
          (addElementFunc modelTixi (.integer 7 none)) sampleWorld).2.calls.drop
          sampleWorld.calls.length ∧
      Call.addIntegerElement 1 "/a" "b" 7 none
        = (ElementArgs.integer 7 none).call 1 (splitXPath "/a/b").parentXPath
            (splitXPath "/a/b").element) :=
  ⟨⟨by decide, (splitXPath_lossless "/a/b").1 (by decide)⟩,
   ⟨by decide, (splitXPath_lossless "leaf").2.1 (by decide)⟩,
   ⟨by decide, (((splitXPath_lossless "/a/b").2.2.2.2 Document modelTixi 1 (.integer 7 none)
      sampleWorld (.addIntegerElement 1 "/a" "b" 7 none) (by decide)).1 rfl).1⟩⟩

/-- C4, where the code departs from it: the boolean element setter forwards the negation of
its value (0 for true, 1 for false). On the sample document, saving true at `/a/b` and
reading it back with `TixiGetBoolElement` gives false, and saving false gives true, while
text, double and integer come back as saved and the boolean attribute setter, which
forwards 1 for true, round-trips. -/
theorem TixiSaveElement_bool_inverted :
    (∀ (σ : Type) (L : Tixi σ) (h : TixiDocumentHandle) (xpath : String) (v : Bool)
      (w : World σ),
      TixiSaveElement_bool L h xpath v w
        = TixiSaveElementInternal L h xpath
            (addElementFunc L (.boolean (if v then 0 else 1))) w) ∧
    (TixiSaveElement_bool modelTixi 1 "/a/b" true sampleWorld).1 = .ok () ∧
    (TixiSaveElement_bool modelTixi 1 "/a/b" true sampleWorld).2.calls
      = [.checkElement 1 "/a", .checkElement 1 "/a/b", .removeElement 1 "/a/b",
          .addBooleanElement 1 "/a" "b" 0] ∧
    (TixiGetBoolElement modelTixi 1 "/a/b"
      (TixiSaveElement_bool modelTixi 1 "/a/b" true sampleWorld).2).1 = .ok false ∧
    (TixiGetBoolElement modelTixi 1 "/a/b"
      (TixiSaveElement_bool modelTixi 1 "/a/b" false sampleWorld).2).1 = .ok true ∧
    (TixiGetTextElement modelTixi 1 "/a/b"
      (TixiSaveElement_text modelTixi 1 "/a/b" "new" sampleWorld).2).1 = .ok "new" ∧
    (TixiGetDoubleElement modelTixi 1 "/a/b"
      (TixiSaveElement_double modelTixi 1 "/a/b" ⟨4609434218613702656⟩ sampleWorld).2).1
      = .ok ⟨4609434218613702656⟩ ∧
    (TixiGetIntElement modelTixi 1 "/a/b"
      (TixiSaveElement_int modelTixi 1 "/a/b" 42 sampleWorld).2).1 = .ok 42 ∧
    (TixiGetBoolAttribute modelTixi 1 "/a/b" "x"
      (TixiSaveAttribute_bool modelTixi 1 "/a/b" "x" true sampleWorld).2).1 = .ok true := by
  refine ⟨fun _ _ _ _ _ _ => rfl, ?_, ?_, ?_, ?_, ?_, ?_, ?_, ?_⟩ <;> decide

/-- C5, where the code departs from it: on the sample document `/a/b` has no attribute `x`
and `TixiCheckAttribute` says so; `TixiSaveAttribute` with the integer 42 succeeds and stores
it; `TixiGetIntAttribute` then calls the boolean retrieval, which refuses 42, and raises
`FAILED` instead of returning 42. Text, double and boolean attributes come back as saved. -/
theorem TixiGetIntAttribute_round_trip_fails :
    (TixiCheckAttribute modelTixi 1 "/a/b" "x" sampleWorld).1 = .ok false ∧
    (TixiSaveAttribute_int modelTixi 1 "/a/b" "x" 42 sampleWorld).1 = .ok () ∧
    (TixiSaveAttribute_int modelTixi 1 "/a/b" "x" 42 sampleWorld).2.doc = attributeDocument ∧
    (TixiGetIntAttribute modelTixi 1 "/a/b" "x"
      (TixiSaveAttribute_int modelTixi 1 "/a/b" "x" 42 sampleWorld).2).1
      = .error (.tixiError ⟨FAILED,
          "Error getting std::string attribute value\nxpath: /a/b\nattribute: x\nReturnCode: FAILED"⟩) ∧
    (TixiGetIntAttribute modelTixi 1 "/a/b" "x"
      (TixiSaveAttribute_int modelTixi 1 "/a/b" "x" 42 sampleWorld).2).1 ≠ .ok 42 ∧
    (TixiGetIntAttribute modelTixi 1 "/a/b" "x"
      (TixiSaveAttribute_int modelTixi 1 "/a/b" "x" 42 sampleWorld).2).2.calls
      = [.checkElement 1 "/a/b", .addIntegerAttribute 1 "/a/b" "x" 42 none,
          .getBooleanAttribute 1 "/a/b" "x"] ∧
    (TixiGetTextAttribute modelTixi 1 "/a/b" "x"
      (TixiSaveAttribute_text modelTixi 1 "/a/b" "x" "new" sampleWorld).2).1 = .ok "new" ∧
    (TixiGetDoubleAttribute modelTixi 1 "/a/b" "x"
      (TixiSaveAttribute_double modelTixi 1 "/a/b" "x" ⟨4609434218613702656⟩
        sampleWorld).2).1 = .ok ⟨4609434218613702656⟩ ∧
    (TixiGetBoolAttribute modelTixi 1 "/a/b" "x"
      (TixiSaveAttribute_bool modelTixi 1 "/a/b" "x" false sampleWorld).2).1 = .ok false := by
  refine ⟨?_, ?_, ?_, ?_, ?_, ?_, ?_, ?_, ?_⟩ <;> decide

/-- C8, where the code departs from it: in every library `TixiGetIntAttribute` makes the
boolean-attribute retrieval call, not the integer one, and returns what that call leaves in
the scratch value (or raises its status). On a document whose attribute `x` holds the
integer 42, the integer retrieval reports `SUCCESS` with 42, and `TixiGetIntAttribute` raises
`FAILED`. The element getter `TixiGetIntElement` does call the integer retrieval. -/
theorem TixiGetIntAttribute_calls_boolean :
    (∀ (σ : Type) (L : Tixi σ) (h : TixiDocumentHandle) (xpath attr : String) (w : World σ),
      (TixiGetIntAttribute L h xpath attr w).2.calls
        = w.calls ++ [.getBooleanAttribute h xpath attr] ∧
      (TixiGetIntAttribute L h xpath attr w).1
        = (if (L.getBooleanAttribute w.doc h xpath attr).1 ≠ SUCCESS then
            .error (throwTixiError (L.getBooleanAttribute w.doc h xpath attr).1
              ("Error getting std::string attribute value\n" ++ "xpath: " ++ xpath ++ "\n"
                ++ "attribute: " ++ attr))
          else .ok (L.getBooleanAttribute w.doc h xpath attr).2)) ∧
    (∀ (σ : Type) (L : Tixi σ) (h : TixiDocumentHandle) (xpath : String) (w : World σ),
      (TixiGetIntElement L h xpath w).2.calls = w.calls ++ [.getIntegerElement h xpath]) ∧
    modelTixi.getIntegerAttribute attributeDocument 1 "/a/b" "x" = (SUCCESS, 42) ∧
    modelTixi.getBooleanAttribute attributeDocument 1 "/a/b" "x" = (FAILED, 0) ∧
    (TixiGetIntAttribute modelTixi 1 "/a/b" "x" attributeWorld).1
      = .error (.tixiError ⟨FAILED,
          "Error getting std::string attribute value\nxpath: /a/b\nattribute: x\nReturnCode: FAILED"⟩) ∧
    (TixiGetIntAttribute (booleanTixi 1) 1 "/a/b" "x" attributeWorld).1 = .ok 1 := by
  refine ⟨?_, ?_, by decide, by decide, by decide, by decide⟩
  · intro σ L h xpath attr w
    simp only [TixiGetIntAttribute, TixiGetAttributeInternal_eq, tixiGetBooleanAttribute,
      World.log, and_self]
  · intro σ L h xpath w
    simp only [TixiGetIntElement, TixiGetElementInternal_eq, tixiGetIntegerElement,
      World.log]

/-- C6, where the code departs from it: the boolean overload of `TixiSaveElement` runs the
create-or-replace forwarder with the negation of its value. On the sample document, where
`/a/b` and its parent exist, saving true makes the four calls in the stated order (check
parent, check path, remove, add), but the add call carries 0 instead of the value, and the
one element left at `/a/b` holds false; saving false leaves true. The integer overload on
the same input leaves exactly one element holding the value saved. -/
theorem TixiSaveElement_bool_replaces_with_negation :
    (∀ (σ : Type) (L : Tixi σ) (h : TixiDocumentHandle) (xpath : String) (v : Bool)
      (w : World σ),
      TixiSaveElement_bool L h xpath v w
        = TixiSaveElementInternal L h xpath
            (addElementFunc L (.boolean (if v then 0 else 1))) w) ∧
    modelTixi.checkElement sampleWorld.doc 1 (splitXPath "/a/b").parentXPath = SUCCESS ∧
    modelTixi.checkElement sampleWorld.doc 1 "/a/b" = SUCCESS ∧
    (TixiSaveElement_bool modelTixi 1 "/a/b" true sampleWorld).1 = .ok () ∧
    (TixiSaveElement_bool modelTixi 1 "/a/b" true sampleWorld).2.calls
      = [.checkElement 1 "/a", .checkElement 1 "/a/b", .removeElement 1 "/a/b",
          .addBooleanElement 1 "/a" "b" 0] ∧
    (TixiSaveElement_bool modelTixi 1 "/a/b" true sampleWorld).2.doc.elementsAt "/a/b"
      = [⟨"/a/b", .boolean false, []⟩] ∧
    (TixiSaveElement_bool modelTixi 1 "/a/b" true sampleWorld).2.doc.elementsAt "/a/b"
      ≠ [⟨"/a/b", .boolean true, []⟩] ∧
    (TixiSaveElement_bool modelTixi 1 "/a/b" false sampleWorld).2.calls
      = [.checkElement 1 "/a", .checkElement 1 "/a/b", .removeElement 1 "/a/b",
          .addBooleanElement 1 "/a" "b" 1] ∧
    (TixiSaveElement_bool modelTixi 1 "/a/b" false sampleWorld).2.doc.elementsAt "/a/b"
      = [⟨"/a/b", .boolean true, []⟩] ∧
    (TixiSaveElement_int modelTixi 1 "/a/b" 7 sampleWorld).2.calls
      = [.checkElement 1 "/a", .checkElement 1 "/a/b", .removeElement 1 "/a/b",
          .addIntegerElement 1 "/a" "b" 7 none] ∧
    (TixiSaveElement_int modelTixi 1 "/a/b" 7 sampleWorld).2.doc.elementsAt "/a/b"
      = [⟨"/a/b", .integer 7, []⟩] := by
  refine ⟨fun _ _ _ _ _ _ => rfl, ?_, ?_, ?_, ?_, ?_, ?_, ?_, ?_, ?_, ?_⟩ <;> decide

end tixihelper
end tigl
